import Mathlib

/-!
Storage abstraction layer of postgresus: facade, multi-storage engine, reference checks.

A shallow embedding of

* `backend/internal/features/storages/models/multi_storage/model.go`
* `backend/internal/features/storages/model.go`
* `backend/internal/features/storages/service.go`
* `backend/internal/features/storages/repository.go`

Go values are embedded as follows.

* `uuid.UUID` is a natural number, `uuid.Nil` is `0`.
* `error` is `Option GoError` (`none` is the nil error); `GoError` keeps the
  `%w` wrapping structure built by `fmt.Errorf`.
* an `io.Reader` is the list of bytes it delivers followed by `io.EOF` or by
  a read error.
* a pointer field is an `Option`; `none` is the nil pointer.
* a Go panic is the `panic` constructor of `Outcome`.
* an interface value (`StorageOperator`) is a record of method closures over
  a private state; every call made through it is appended to a call log.
-/

set_option autoImplicit false

namespace Postgresus

/-! ## Errors -/

/-- The type `uuid.UUID`. -/
abbrev UUID := Nat

/-- The constant `uuid.Nil`. -/
def uuidNil : UUID := 0

/-- Go errors as built in these files: `errors.New(msg)` and `fmt.Errorf`
without a `%w` verb give `new`; `fmt.Errorf(pre + "%w", inner)` gives `wrapf`. -/
inductive GoError where
  | new (msg : String)
  | wrapf (pre : String) (inner : GoError)
  deriving DecidableEq, Repr

namespace GoError

/-- The method `Error()`: the message text. -/
def Error : GoError → String
  | new msg => msg
  | wrapf pre inner => pre ++ inner.Error

/-- The method `Unwrap()` of a `%w` error. -/
def Unwrap : GoError → Option GoError
  | new _ => none
  | wrapf _ inner => some inner

/-- The chain walked by `errors.Is`: the error itself, then what it wraps. -/
def chain : GoError → List GoError
  | new msg => [new msg]
  | wrapf pre inner => wrapf pre inner :: inner.chain

/-- The error `err` carries `target`: `errors.Is(err, target)`. -/
def Carries (err target : GoError) : Prop := target ∈ err.chain

instance (err target : GoError) : Decidable (Carries err target) :=
  inferInstanceAs (Decidable (target ∈ err.chain))

end GoError

/-! ## Byte streams and the local file system used for staging -/

/-- An `io.Reader`: the bytes it yields, then `io.EOF` (`err = none`) or a
read error. -/
structure Reader where
  data : List Nat
  err : Option GoError

/-- A reader over an opened file: all bytes, then `io.EOF`. -/
def Reader.ofFile (content : List Nat) : Reader := ⟨content, none⟩

/-- A file path: the result of `filepath.Join(dir, base)`. -/
structure Path where
  dir : String
  base : String
  deriving DecidableEq, Repr

/-- The local file system: the content of each existing file. -/
abbrev FS := Path → Option (List Nat)

/-- The empty file system. -/
def FS.empty : FS := fun _ => none

/-- The file system after the file at `p` has been given content `c`. -/
def FS.write (fs : FS) (p : Path) (c : List Nat) : FS :=
  fun q => if q = p then some c else fs q

/-- The file system after the file at `p` has been unlinked. -/
def FS.unlink (fs : FS) (p : Path) : FS :=
  fun q => if q = p then none else fs q

/-- Failures the operating system may answer to the file operations of one
`SaveFile` call (`none`: the operation goes through). -/
structure Faults where
  create : Option GoError
  write : Option GoError
  openPrimary : Option GoError
  openSecondary : Option GoError
  remove : Option GoError

/-- No operating-system failure. -/
def Faults.none : Faults := ⟨.none, .none, .none, .none, .none⟩

/-- The call `os.Create(path)`: creates or truncates the file. -/
def osCreate (fault : Option GoError) (fs : FS) (path : Path) : Except GoError FS :=
  match fault with
  | some e => .error e
  | none => .ok (fs.write path [])

/-- The call `io.Copy(tempFile, file)` on the freshly created file: the bytes
read are written to the file; a write failure (only possible when there is
something to write) or the reader's own error is returned. -/
def ioCopy (fault : Option GoError) (fs : FS) (path : Path) (file : Reader) :
    FS × Option GoError :=
  match file.data, fault with
  | _ :: _, some e => (fs, some e)
  | _, _ => (fs.write path file.data, file.err)

/-- The call `os.Open(path)`: the content readable through the new handle. -/
def osOpen (fault : Option GoError) (fs : FS) (path : Path) : Except GoError (List Nat) :=
  match fault with
  | some e => .error e
  | none =>
    match fs path with
    | some c => .ok c
    | none => .error (.new "open: no such file or directory")

/-- The call `os.Remove(path)`, its error discarded (`_ = os.Remove(...)`). -/
def osRemove (fault : Option GoError) (fs : FS) (path : Path) : FS :=
  match fault with
  | some _ => fs
  | none => fs.unlink path

/-- What `SaveFile` reads from its surroundings: the context (`ctxErr` is
`ctx.Err()` when `ctx.Done()` is closed), `config.GetEnv().TempFolder`, the
file system and the failures the operating system will answer. -/
structure Env where
  ctxErr : Option GoError
  TempFolder : String
  fs : FS
  faults : Faults

/-- The staging path `filepath.Join(TempFolder, "multi_"+fileID.String())`. -/
def tempFilePath (env : Env) (fileID : UUID) : Path :=
  ⟨env.TempFolder, "multi_" ++ toString fileID⟩

/-! ## The multi-storage engine (`multi_storage/model.go`) -/

/-- Which of the two legs a call went to. -/
inductive Leg where
  | primary
  | secondary
  deriving DecidableEq, Repr

/-- One call made through a `StorageOperator` handle, with its arguments. -/
inductive LegCall where
  | SaveFile (leg : Leg) (fileID : UUID) (content : List Nat)
  | GetFile (leg : Leg) (fileID : UUID)
  | DeleteFile (leg : Leg) (fileID : UUID)
  | TestConnection (leg : Leg)
  deriving DecidableEq, Repr

/-- The leg a call went to. -/
def LegCall.leg : LegCall → Leg
  | .SaveFile l _ _ => l
  | .GetFile l _ => l
  | .DeleteFile l _ => l
  | .TestConnection l => l

/-- A value of the interface `StorageOperator`: a backend with private state
`state` and the four methods of the interface. `SaveFile` and `DeleteFile`
may change the state; the context, encryptor and logger arguments are only
passed through and are part of the closures. -/
structure StorageOperator (σ : Type) where
  state : σ
  SaveFile : σ → UUID → Reader → Option GoError × σ
  GetFile : σ → UUID → Except GoError (List Nat)
  DeleteFile : σ → UUID → Option GoError × σ
  TestConnection : σ → Option GoError

/-- The struct `MultiStorage`; `Primary` and `Secondary` are the transient
resolved handles (`none` before `SetStorages`). -/
structure MultiStorage (σ : Type) where
  StorageID : UUID
  PrimaryID : UUID
  SecondaryID : UUID
  Primary : Option (StorageOperator σ)
  Secondary : Option (StorageOperator σ)

/-- The observable result of one engine method: the returned value, the
engine afterwards (the legs may have changed state) and the leg calls made,
in order. -/
structure Run (σ α : Type) where
  result : α
  self : MultiStorage σ
  calls : List LegCall

/-- The observable result of `MultiStorage.SaveFile`: the returned error, the
engine afterwards, the leg calls made and the file system at return. -/
structure SaveRun (σ : Type) where
  err : Option GoError
  self : MultiStorage σ
  calls : List LegCall
  fs : FS

variable {σ : Type}

/-- The text of the guard error of the engine. -/
def notInitialized : GoError := .new "multi-storage not properly initialized"

/-- Lines 69-96 of `MultiStorage.SaveFile`: everything after the staging file
was created, with `fs` the file system at that point. -/
def MultiStorage.saveStaged (m : MultiStorage σ) (p s : StorageOperator σ)
    (faults : Faults) (fs : FS) (path : Path) (fileID : UUID) (file : Reader) : SaveRun σ :=
  match ioCopy faults.write fs path file with
  | (fs1, some e) => ⟨some (.wrapf "failed to write to temp file: " e), m, [], fs1⟩
  | (fs1, none) =>
    match osOpen faults.openPrimary fs1 path with
    | .error e => ⟨some (.wrapf "failed to open temp file for primary: " e), m, [], fs1⟩
    | .ok primaryFile =>
      let r1 := p.SaveFile p.state fileID (Reader.ofFile primaryFile)
      let m1 : MultiStorage σ := { m with Primary := some { p with state := r1.2 } }
      let c1 := LegCall.SaveFile .primary fileID primaryFile
      match r1.1 with
      | some e => ⟨some (.wrapf "failed to save to primary storage: " e), m1, [c1], fs1⟩
      | none =>
        match osOpen faults.openSecondary fs1 path with
        | .error e =>
          ⟨some (.wrapf "failed to open temp file for secondary: " e), m1, [c1], fs1⟩
        | .ok secondaryFile =>
          let r2 := s.SaveFile s.state fileID (Reader.ofFile secondaryFile)
          let m2 : MultiStorage σ := { m1 with Secondary := some { s with state := r2.2 } }
          let c2 := LegCall.SaveFile .secondary fileID secondaryFile
          match r2.1 with
          | some e => ⟨some (.wrapf "failed to save to secondary storage: " e), m2, [c1, c2], fs1⟩
          | none => ⟨none, m2, [c1, c2], fs1⟩

/-- The method `MultiStorage.SaveFile`. The deferred `os.Remove` runs on every
return that follows a successful `os.Create`. -/
def MultiStorage.SaveFile (m : MultiStorage σ) (env : Env) (fileID : UUID) (file : Reader) :
    SaveRun σ :=
  match m.Primary, m.Secondary with
  | some p, some s =>
    match env.ctxErr with
    | some e => ⟨some e, m, [], env.fs⟩
    | none =>
      let path := tempFilePath env fileID
      match osCreate env.faults.create env.fs path with
      | .error e => ⟨some (.wrapf "failed to create temp file: " e), m, [], env.fs⟩
      | .ok fs0 =>
        let r := m.saveStaged p s env.faults fs0 path fileID file
        { r with fs := osRemove env.faults.remove r.fs path }
  | _, _ => ⟨some notInitialized, m, [], env.fs⟩

/-- The method `MultiStorage.GetFile`. -/
def MultiStorage.GetFile (m : MultiStorage σ) (fileID : UUID) :
    Run σ (Except GoError (List Nat)) :=
  match m.Primary with
  | none => ⟨.error notInitialized, m, []⟩
  | some p =>
    match p.GetFile p.state fileID with
    | .ok reader => ⟨.ok reader, m, [.GetFile .primary fileID]⟩
    | .error err =>
      match m.Secondary with
      | some s =>
        match s.GetFile s.state fileID with
        | .ok reader => ⟨.ok reader, m, [.GetFile .primary fileID, .GetFile .secondary fileID]⟩
        | .error err2 =>
          ⟨.error (.wrapf "failed to get file from both storages: " err2), m,
            [.GetFile .primary fileID, .GetFile .secondary fileID]⟩
      | none =>
        ⟨.error (.wrapf "failed to get file from both storages: " err), m,
          [.GetFile .primary fileID]⟩

/-- The method `MultiStorage.DeleteFile`. -/
def MultiStorage.DeleteFile (m : MultiStorage σ) (fileID : UUID) : Run σ (Option GoError) :=
  let r1 : Option GoError × MultiStorage σ × List LegCall :=
    match m.Primary with
    | some p =>
      let d := p.DeleteFile p.state fileID
      (d.1, { m with Primary := some { p with state := d.2 } }, [.DeleteFile .primary fileID])
    | none => (none, m, [])
  let r2 : Option GoError × MultiStorage σ × List LegCall :=
    match m.Secondary with
    | some s =>
      let d := s.DeleteFile s.state fileID
      (d.1, { r1.2.1 with Secondary := some { s with state := d.2 } },
        r1.2.2 ++ [.DeleteFile .secondary fileID])
    | none => (none, r1.2.1, r1.2.2)
  match r1.1, r2.1 with
  | some primaryErr, some secondaryErr =>
    ⟨some (.new ("failed to delete from both storages: primary: " ++ primaryErr.Error
        ++ ", secondary: " ++ secondaryErr.Error)), r2.2.1, r2.2.2⟩
  | _, _ => ⟨none, r2.2.1, r2.2.2⟩

/-- The method `MultiStorage.Validate`. -/
def MultiStorage.Validate (m : MultiStorage σ) : Option GoError :=
  if m.PrimaryID = uuidNil then some (.new "primary storage is required")
  else if m.SecondaryID = uuidNil then some (.new "secondary storage is required")
  else if m.PrimaryID = m.SecondaryID then
    some (.new "primary and secondary storage must be different")
  else none

/-- The method `MultiStorage.TestConnection`. -/
def MultiStorage.TestConnection (m : MultiStorage σ) : Run σ (Option GoError) :=
  match m.Primary, m.Secondary with
  | some p, some s =>
    match p.TestConnection p.state with
    | some err =>
      ⟨some (.wrapf "primary storage connection failed: " err), m, [.TestConnection .primary]⟩
    | none =>
      match s.TestConnection s.state with
      | some err =>
        ⟨some (.wrapf "secondary storage connection failed: " err), m,
          [.TestConnection .primary, .TestConnection .secondary]⟩
      | none => ⟨none, m, [.TestConnection .primary, .TestConnection .secondary]⟩
  | _, _ => ⟨some notInitialized, m, []⟩

/-- The method `MultiStorage.HideSensitiveData`: an empty body. -/
def MultiStorage.HideSensitiveData (m : MultiStorage σ) : MultiStorage σ := m

/-- The method `MultiStorage.EncryptSensitiveData`: returns nil. -/
def MultiStorage.EncryptSensitiveData (_m : MultiStorage σ) : Option GoError := none

/-- The method `MultiStorage.Update`. -/
def MultiStorage.Update (m incoming : MultiStorage σ) : MultiStorage σ :=
  { m with PrimaryID := incoming.PrimaryID, SecondaryID := incoming.SecondaryID }

/-- The method `MultiStorage.SetStorages`. -/
def MultiStorage.SetStorages (m : MultiStorage σ) (primary secondary : Option (StorageOperator σ)) :
    MultiStorage σ :=
  { m with Primary := primary, Secondary := secondary }

/-! ## The storage facade (`storages/model.go`) -/

/-- Modelled from the spec: the string type `StorageType` and its constants
are declared outside the files at hand; section 3 of the specification lists
the seven declared tags. `other tag` is a string that is none of the seven
constants, `other ""` the empty string. -/
inductive StorageType where
  | Local
  | S3
  | GoogleDrive
  | NAS
  | AzureBlob
  | FTP
  | Multi
  | other (tag : String)
  deriving DecidableEq, Repr

/-- Modelled from the spec: a populated payload of one of the six backend
kinds implemented outside the files at hand (`LocalStorage`, `S3Storage`,
`GoogleDriveStorage`, `NASStorage`, `AzureBlobStorage`, `FTPStorage`), as the
capability contract of section 4.1 describes it: a private state (the
configuration and the backend behind it) and one closure per capability. -/
structure ForeignStorage (σ : Type) where
  StorageID : UUID
  state : σ
  SaveFile : σ → UUID → Reader → Option GoError × σ
  GetFile : σ → UUID → Except GoError (List Nat)
  DeleteFile : σ → UUID → Option GoError × σ
  Validate : σ → Option GoError
  TestConnection : σ → Option GoError
  HideSensitiveData : σ → σ
  EncryptSensitiveData : σ → Option GoError × σ
  Update : σ → σ → σ

/-- The struct `Storage`: the parent record and its seven variant slots. -/
structure Storage (σ : Type) where
  ID : UUID
  WorkspaceID : UUID
  Type_ : StorageType
  Name : String
  LastSaveError : Option String
  LocalStorage : Option (ForeignStorage σ)
  S3Storage : Option (ForeignStorage σ)
  GoogleDriveStorage : Option (ForeignStorage σ)
  NASStorage : Option (ForeignStorage σ)
  AzureBlobStorage : Option (ForeignStorage σ)
  FTPStorage : Option (ForeignStorage σ)
  MultiStorage : Option (MultiStorage σ)

/-- How a Go call ends: it returns, it panics, or it has entered a method of
a backend kind implemented outside the files at hand with a nil receiver
(what happens then is decided by that method). -/
inductive Outcome (α : Type) where
  | ret (a : α)
  | panic (msg : String)
  | nilReceiver (kind : StorageType)

/-- The call returned (with any value). -/
def Outcome.Returns {α : Type} : Outcome α → Prop
  | .ret _ => True
  | _ => False

/-- The call ended in a panic. -/
def Outcome.Panics {α : Type} : Outcome α → Prop
  | .panic _ => True
  | _ => False

instance {α : Type} (o : Outcome α) : Decidable o.Returns := by
  cases o <;> simp only [Outcome.Returns] <;> infer_instance

instance {α : Type} (o : Outcome α) : Decidable o.Panics := by
  cases o <;> simp only [Outcome.Panics] <;> infer_instance

/-- The runtime panic of a nil pointer dereference. -/
def nilDereference : String := "runtime error: invalid memory address or nil pointer dereference"

/-- A value of the interface `StorageFileSaver` as `getSpecificStorage`
returns it: the slot pointer (possibly nil) with its static type. -/
inductive StorageFileSaver (σ : Type) where
  | foreign (kind : StorageType) (recv : Option (ForeignStorage σ))
  | multi (recv : Option (Postgresus.MultiStorage σ))

/-- The method `Storage.getSpecificStorage`. -/
def Storage.getSpecificStorage (s : Storage σ) : Outcome (StorageFileSaver σ) :=
  match s.Type_ with
  | .Local => .ret (.foreign .Local s.LocalStorage)
  | .S3 => .ret (.foreign .S3 s.S3Storage)
  | .GoogleDrive => .ret (.foreign .GoogleDrive s.GoogleDriveStorage)
  | .NAS => .ret (.foreign .NAS s.NASStorage)
  | .AzureBlob => .ret (.foreign .AzureBlob s.AzureBlobStorage)
  | .FTP => .ret (.foreign .FTP s.FTPStorage)
  | .Multi => .ret (.multi s.MultiStorage)
  | .other tag => .panic ("invalid storage type: " ++ tag)

/-- The payload behind a slot pointer was changed in place: the slot of kind
`kind` now reads `v`. -/
def Storage.putForeign (s : Storage σ) (kind : StorageType) (v : ForeignStorage σ) : Storage σ :=
  match kind with
  | .Local => { s with LocalStorage := some v }
  | .S3 => { s with S3Storage := some v }
  | .GoogleDrive => { s with GoogleDriveStorage := some v }
  | .NAS => { s with NASStorage := some v }
  | .AzureBlob => { s with AzureBlobStorage := some v }
  | .FTP => { s with FTPStorage := some v }
  | _ => s

/-- The observable result of one facade method: the returned value, the
record afterwards and the leg calls made (by a Multi variant). -/
structure FacadeRun (σ α : Type) where
  result : α
  self : Storage σ
  calls : List LegCall

/-- Lines 45-53 of `Storage.SaveFile`: record or clear `LastSaveError`. -/
def Storage.recordSave (s : Storage σ) (err : Option GoError) (calls : List LegCall) :
    FacadeRun σ (Option GoError) :=
  match err with
  | some e => ⟨some e, { s with LastSaveError := some e.Error }, calls⟩
  | none => ⟨none, { s with LastSaveError := none }, calls⟩

/-- The method `Storage.SaveFile`, with the file system at return. -/
def Storage.SaveFile (s : Storage σ) (env : Env) (fileID : UUID) (file : Reader) :
    Outcome (FacadeRun σ (Option GoError) × FS) :=
  match s.getSpecificStorage with
  | .panic msg => .panic msg
  | .nilReceiver k => .nilReceiver k
  | .ret (.foreign k none) => .nilReceiver k
  | .ret (.foreign k (some v)) =>
    let r := v.SaveFile v.state fileID file
    .ret ((s.putForeign k { v with state := r.2 }).recordSave r.1 [], env.fs)
  | .ret (.multi none) => .panic nilDereference
  | .ret (.multi (some m)) =>
    let r := m.SaveFile env fileID file
    .ret (Storage.recordSave { s with MultiStorage := some r.self } r.err r.calls, r.fs)

/-- The method `Storage.GetFile`. -/
def Storage.GetFile (s : Storage σ) (fileID : UUID) :
    Outcome (FacadeRun σ (Except GoError (List Nat))) :=
  match s.getSpecificStorage with
  | .panic msg => .panic msg
  | .nilReceiver k => .nilReceiver k
  | .ret (.foreign k none) => .nilReceiver k
  | .ret (.foreign _ (some v)) => .ret ⟨v.GetFile v.state fileID, s, []⟩
  | .ret (.multi none) => .panic nilDereference
  | .ret (.multi (some m)) =>
    let r := m.GetFile fileID
    .ret ⟨r.result, { s with MultiStorage := some r.self }, r.calls⟩

/-- The method `Storage.DeleteFile`. -/
def Storage.DeleteFile (s : Storage σ) (fileID : UUID) : Outcome (FacadeRun σ (Option GoError)) :=
  match s.getSpecificStorage with
  | .panic msg => .panic msg
  | .nilReceiver k => .nilReceiver k
  | .ret (.foreign k none) => .nilReceiver k
  | .ret (.foreign k (some v)) =>
    let r := v.DeleteFile v.state fileID
    .ret ⟨r.1, s.putForeign k { v with state := r.2 }, []⟩
  | .ret (.multi none) => .panic nilDereference
  | .ret (.multi (some m)) =>
    let r := m.DeleteFile fileID
    .ret ⟨r.result, { s with MultiStorage := some r.self }, r.calls⟩

/-- The method `Storage.Validate`. -/
def Storage.Validate (s : Storage σ) : Outcome (Option GoError) :=
  if s.Type_ = .other "" then .ret (some (.new "storage type is required"))
  else if s.Name = "" then .ret (some (.new "storage name is required"))
  else
    match s.getSpecificStorage with
    | .panic msg => .panic msg
    | .nilReceiver k => .nilReceiver k
    | .ret (.foreign k none) => .nilReceiver k
    | .ret (.foreign _ (some v)) => .ret (v.Validate v.state)
    | .ret (.multi none) => .panic nilDereference
    | .ret (.multi (some m)) => .ret m.Validate

/-- The method `Storage.TestConnection`. -/
def Storage.TestConnection (s : Storage σ) : Outcome (FacadeRun σ (Option GoError)) :=
  match s.getSpecificStorage with
  | .panic msg => .panic msg
  | .nilReceiver k => .nilReceiver k
  | .ret (.foreign k none) => .nilReceiver k
  | .ret (.foreign _ (some v)) => .ret ⟨v.TestConnection v.state, s, []⟩
  | .ret (.multi none) => .panic nilDereference
  | .ret (.multi (some m)) =>
    let r := m.TestConnection
    .ret ⟨r.result, { s with MultiStorage := some r.self }, r.calls⟩

/-- The method `Storage.HideSensitiveData`: the record afterwards. On a nil
`*MultiStorage` the empty method body runs and returns. -/
def Storage.HideSensitiveData (s : Storage σ) : Outcome (Storage σ) :=
  match s.getSpecificStorage with
  | .panic msg => .panic msg
  | .nilReceiver k => .nilReceiver k
  | .ret (.foreign k none) => .nilReceiver k
  | .ret (.foreign k (some v)) =>
    .ret (s.putForeign k { v with state := v.HideSensitiveData v.state })
  | .ret (.multi none) => .ret s
  | .ret (.multi (some m)) => .ret { s with MultiStorage := some m.HideSensitiveData }

/-- The method `Storage.EncryptSensitiveData`: the returned error and the
record afterwards. On a nil `*MultiStorage` the method body `return nil` runs. -/
def Storage.EncryptSensitiveData (s : Storage σ) : Outcome (Option GoError × Storage σ) :=
  match s.getSpecificStorage with
  | .panic msg => .panic msg
  | .nilReceiver k => .nilReceiver k
  | .ret (.foreign k none) => .nilReceiver k
  | .ret (.foreign k (some v)) =>
    let r := v.EncryptSensitiveData v.state
    .ret (r.1, s.putForeign k { v with state := r.2 })
  | .ret (.multi none) => .ret (none, s)
  | .ret (.multi (some m)) => .ret (m.EncryptSensitiveData, s)

/-! ## Repository lookup and the reference check (`repository.go`, `service.go`) -/

/-- The method `StorageRepository.FindByID` over the table `rows` of parent
records (each with its variant slots loaded): the first row with the given
primary key, or the record-not-found error of the query. -/
def StorageRepository.FindByID (rows : List (Storage σ)) (id : UUID) :
    Except GoError (Storage σ) :=
  match rows.find? (fun r => decide (r.ID = id)) with
  | some r => .ok r
  | none => .error (.new "record not found")

/-- The method `StorageService.ValidateMultiStorageReferences`. -/
def StorageService.ValidateMultiStorageReferences (rows : List (Storage σ))
    (storage : Storage σ) : Option GoError :=
  if storage.Type_ ≠ .Multi then none
  else
    match storage.MultiStorage with
    | none => none
    | some m =>
      match StorageRepository.FindByID rows m.PrimaryID with
      | .error err => some (.wrapf "primary storage not found: " err)
      | .ok primary =>
        if primary.Type_ = .Multi then
          some (.new "primary storage cannot be a multi-storage")
        else
          match StorageRepository.FindByID rows m.SecondaryID with
          | .error err => some (.wrapf "secondary storage not found: " err)
          | .ok secondary =>
            if secondary.Type_ = .Multi then
              some (.new "secondary storage cannot be a multi-storage")
            else if primary.WorkspaceID ≠ storage.WorkspaceID then
              some (.new "primary storage must belong to the same workspace")
            else if secondary.WorkspaceID ≠ storage.WorkspaceID then
              some (.new "secondary storage must belong to the same workspace")
            else none

/-! ## Merge, persistence and the service operations (`model.go`, `repository.go`, `service.go`) -/

/-- The `Update` of a foreign payload: the mutable fields of `incoming` are
merged into the receiver. -/
def ForeignStorage.merge (a incoming : ForeignStorage σ) : ForeignStorage σ :=
  { a with state := a.Update a.state incoming.state }

/-- The method `Storage.Update`. The `switch` runs on the type just taken
from `incoming`; the slots themselves are never assigned. -/
def Storage.Update (s incoming : Storage σ) : Storage σ :=
  let s1 : Storage σ := { s with Name := incoming.Name, Type_ := incoming.Type_ }
  match incoming.Type_ with
  | .Local =>
    match s.LocalStorage, incoming.LocalStorage with
    | some a, some b => { s1 with LocalStorage := some (a.merge b) }
    | _, _ => s1
  | .S3 =>
    match s.S3Storage, incoming.S3Storage with
    | some a, some b => { s1 with S3Storage := some (a.merge b) }
    | _, _ => s1
  | .GoogleDrive =>
    match s.GoogleDriveStorage, incoming.GoogleDriveStorage with
    | some a, some b => { s1 with GoogleDriveStorage := some (a.merge b) }
    | _, _ => s1
  | .NAS =>
    match s.NASStorage, incoming.NASStorage with
    | some a, some b => { s1 with NASStorage := some (a.merge b) }
    | _, _ => s1
  | .AzureBlob =>
    match s.AzureBlobStorage, incoming.AzureBlobStorage with
    | some a, some b => { s1 with AzureBlobStorage := some (a.merge b) }
    | _, _ => s1
  | .FTP =>
    match s.FTPStorage, incoming.FTPStorage with
    | some a, some b => { s1 with FTPStorage := some (a.merge b) }
    | _, _ => s1
  | .Multi =>
    match s.MultiStorage, incoming.MultiStorage with
    | some a, some b => { s1 with MultiStorage := some (a.Update b) }
    | _, _ => s1
  | .other _ => s1

/-- The variant slots that are populated, in declaration order. -/
def Storage.populatedSlots (s : Storage σ) : List StorageType :=
  (if s.LocalStorage.isSome then [.Local] else [])
    ++ (if s.S3Storage.isSome then [.S3] else [])
    ++ (if s.GoogleDriveStorage.isSome then [.GoogleDrive] else [])
    ++ (if s.NASStorage.isSome then [.NAS] else [])
    ++ (if s.AzureBlobStorage.isSome then [.AzureBlob] else [])
    ++ (if s.FTPStorage.isSome then [.FTP] else [])
    ++ (if s.MultiStorage.isSome then [.Multi] else [])

/-- The invariant of section 3: exactly one variant slot is populated, the
one selected by the type. -/
def Storage.TypeMatchesSlot (s : Storage σ) : Prop := s.populatedSlots = [s.Type_]

instance (s : Storage σ) : Decidable s.TypeMatchesSlot :=
  inferInstanceAs (Decidable (s.populatedSlots = [s.Type_]))

/-- Both `switch` statements of `StorageRepository.Save`: the child selected
by the type, when present, gets the parent ID as its foreign key. -/
def Storage.linkVariant (s : Storage σ) : Storage σ :=
  match s.Type_ with
  | .Local => { s with LocalStorage := s.LocalStorage.map fun v => { v with StorageID := s.ID } }
  | .S3 => { s with S3Storage := s.S3Storage.map fun v => { v with StorageID := s.ID } }
  | .GoogleDrive =>
    { s with GoogleDriveStorage := s.GoogleDriveStorage.map fun v => { v with StorageID := s.ID } }
  | .NAS => { s with NASStorage := s.NASStorage.map fun v => { v with StorageID := s.ID } }
  | .AzureBlob =>
    { s with AzureBlobStorage := s.AzureBlobStorage.map fun v => { v with StorageID := s.ID } }
  | .FTP => { s with FTPStorage := s.FTPStorage.map fun v => { v with StorageID := s.ID } }
  | .Multi => { s with MultiStorage := s.MultiStorage.map fun m => { m with StorageID := s.ID } }
  | .other _ => s

/-- What a later load finds for the ID of `s` once the transaction of
`StorageRepository.Save` has committed: the parent columns of `s`; the child
of the selected type as `s` holds it (the transient handles of a Multi child
are not columns), the children in the other tables as they were (`old` is
the row loaded before, if any). -/
def StorageRepository.storedRow (old : Option (Storage σ)) (s : Storage σ) : Storage σ :=
  let base : Storage σ :=
    match old with
    | some o =>
      { o with ID := s.ID, WorkspaceID := s.WorkspaceID, Type_ := s.Type_, Name := s.Name,
               LastSaveError := s.LastSaveError }
    | none =>
      ⟨s.ID, s.WorkspaceID, s.Type_, s.Name, s.LastSaveError,
        none, none, none, none, none, none, none⟩
  match s.Type_ with
  | .Local => match s.LocalStorage with
    | some v => { base with LocalStorage := some v }
    | none => base
  | .S3 => match s.S3Storage with
    | some v => { base with S3Storage := some v }
    | none => base
  | .GoogleDrive => match s.GoogleDriveStorage with
    | some v => { base with GoogleDriveStorage := some v }
    | none => base
  | .NAS => match s.NASStorage with
    | some v => { base with NASStorage := some v }
    | none => base
  | .AzureBlob => match s.AzureBlobStorage with
    | some v => { base with AzureBlobStorage := some v }
    | none => base
  | .FTP => match s.FTPStorage with
    | some v => { base with FTPStorage := some v }
    | none => base
  | .Multi => match s.MultiStorage with
    | some m => { base with MultiStorage := some { m with Primary := none, Secondary := none } }
    | none => base
  | .other _ => base

/-- The table after the row `row` has been upserted by primary key. -/
def StorageRepository.upsert (rows : List (Storage σ)) (row : Storage σ) : List (Storage σ) :=
  if rows.any (fun r => decide (r.ID = row.ID)) then
    rows.map (fun r => if r.ID = row.ID then row else r)
  else rows ++ [row]

/-- The method `StorageRepository.Save`: one transaction. `fault` is the
error of a failing statement (everything is rolled back), `newID` the value
`gen_random_uuid()` gives a parent row created with the nil ID. Returns the
struct handed back to the caller and the table afterwards. -/
def StorageRepository.Save (fault : Option GoError) (newID : UUID) (rows : List (Storage σ))
    (storage : Storage σ) : Except GoError (Storage σ × List (Storage σ)) :=
  match fault with
  | some err => .error err
  | none =>
    let created : Storage σ :=
      if storage.ID = uuidNil then { storage with ID := newID } else storage
    let linked := created.linkVariant
    let old := rows.find? (fun r => decide (r.ID = linked.ID))
    .ok (linked, StorageRepository.upsert rows (StorageRepository.storedRow old linked))

/-- One step of a service operation, as seen from outside. -/
inductive ServiceStep where
  | CanUserManageDBs
  | CanUserAccessWorkspace
  | FindByID
  | Update
  | EncryptSensitiveData
  | Validate
  | ValidateMultiStorageReferences
  | initializeMultiStorage
  | TestConnection
  | Save
  | WriteAuditLog (text : String)
  deriving DecidableEq, Repr

/-- The observable result of a service operation: how it ended, the table
afterwards, the steps taken in order, the argument of the repository `Save`
(if it was called) and the struct the operation worked on, as it is at
return (`none` when none was loaded). -/
structure ServiceRun (σ : Type) where
  outcome : Outcome (Option GoError)
  rows : List (Storage σ)
  log : List ServiceStep
  saveArg : Option (Storage σ)
  entity : Option (Storage σ)

/-- Lines 49-70 and 74-95 of `StorageService.SaveStorage`, the same on both
paths: encrypt, validate, check the references, save, write the audit log.
`pre` are the steps taken before, `audit` the text of the audit entry. -/
def StorageService.encryptValidateSave (saveFault : Option GoError) (newID : UUID)
    (rows : List (Storage σ)) (entity : Storage σ) (pre : List ServiceStep) (audit : String) :
    ServiceRun σ :=
  match entity.EncryptSensitiveData with
  | .panic msg => ⟨.panic msg, rows, pre ++ [.EncryptSensitiveData], none, some entity⟩
  | .nilReceiver k => ⟨.nilReceiver k, rows, pre ++ [.EncryptSensitiveData], none, some entity⟩
  | .ret (some err, e1) => ⟨.ret (some err), rows, pre ++ [.EncryptSensitiveData], none, some e1⟩
  | .ret (none, e1) =>
    match e1.Validate with
    | .panic msg => ⟨.panic msg, rows, pre ++ [.EncryptSensitiveData, .Validate], none, some e1⟩
    | .nilReceiver k =>
      ⟨.nilReceiver k, rows, pre ++ [.EncryptSensitiveData, .Validate], none, some e1⟩
    | .ret (some err) =>
      ⟨.ret (some err), rows, pre ++ [.EncryptSensitiveData, .Validate], none, some e1⟩
    | .ret none =>
      match StorageService.ValidateMultiStorageReferences rows e1 with
      | some err =>
        ⟨.ret (some err), rows,
          pre ++ [.EncryptSensitiveData, .Validate, .ValidateMultiStorageReferences], none, some e1⟩
      | none =>
        match StorageRepository.Save saveFault newID rows e1 with
        | .error err =>
          ⟨.ret (some err), rows,
            pre ++ [.EncryptSensitiveData, .Validate, .ValidateMultiStorageReferences, .Save],
            some e1, some e1⟩
        | .ok (e2, rows1) =>
          ⟨.ret none, rows1,
            pre ++ [.EncryptSensitiveData, .Validate, .ValidateMultiStorageReferences, .Save,
              .WriteAuditLog (audit ++ e2.Name)],
            some e1, some e2⟩

/-- The method `StorageService.SaveStorage`. `canManage` is what
`workspaceService.CanUserManageDBs(workspaceID, user)` returns. -/
def StorageService.SaveStorage (canManage : Except GoError Bool) (saveFault : Option GoError)
    (newID : UUID) (rows : List (Storage σ)) (workspaceID : UUID) (storage : Storage σ) :
    ServiceRun σ :=
  match canManage with
  | .error err => ⟨.ret (some err), rows, [.CanUserManageDBs], none, some storage⟩
  | .ok false =>
    ⟨.ret (some (.new "insufficient permissions to manage storage in this workspace")), rows,
      [.CanUserManageDBs], none, some storage⟩
  | .ok true =>
    if storage.ID ≠ uuidNil then
      match StorageRepository.FindByID rows storage.ID with
      | .error err => ⟨.ret (some err), rows, [.CanUserManageDBs, .FindByID], none, some storage⟩
      | .ok existingStorage =>
        if existingStorage.WorkspaceID ≠ workspaceID then
          ⟨.ret (some (.new "storage does not belong to this workspace")), rows,
            [.CanUserManageDBs, .FindByID], none, some existingStorage⟩
        else
          StorageService.encryptValidateSave saveFault newID rows
            (existingStorage.Update storage) [.CanUserManageDBs, .FindByID, .Update]
            "Storage updated: "
    else
      StorageService.encryptValidateSave saveFault newID rows
        { storage with WorkspaceID := workspaceID } [.CanUserManageDBs] "Storage created: "

/-- The method `StorageService.initializeMultiStorage`: the returned error
and the struct afterwards. `asOperator` is the conversion of a loaded
`*Storage` to the interface `StorageOperator`. -/
def StorageService.initializeMultiStorage (asOperator : Storage σ → StorageOperator σ)
    (rows : List (Storage σ)) (storage : Storage σ) : Option GoError × Storage σ :=
  if storage.Type_ ≠ .Multi then (none, storage)
  else
    match storage.MultiStorage with
    | none => (none, storage)
    | some m =>
      if m.PrimaryID = uuidNil ∨ m.SecondaryID = uuidNil then
        (some (.new "primary and secondary storage IDs are required"), storage)
      else
        match StorageRepository.FindByID rows m.PrimaryID with
        | .error err => (some (.wrapf "failed to load primary storage: " err), storage)
        | .ok primary =>
          match StorageRepository.FindByID rows m.SecondaryID with
          | .error err => (some (.wrapf "failed to load secondary storage: " err), storage)
          | .ok secondary =>
            (none, { storage with
              MultiStorage := some (m.SetStorages (some (asOperator primary))
                (some (asOperator secondary))) })

/-- The method `StorageService.TestStorageConnection`. `canView` is what
`workspaceService.CanUserAccessWorkspace(storage.WorkspaceID, user)` returns
(its error and its first result). -/
def StorageService.TestStorageConnection (asOperator : Storage σ → StorageOperator σ)
    (canView : Except GoError Bool) (saveFault : Option GoError) (newID : UUID)
    (rows : List (Storage σ)) (storageID : UUID) : ServiceRun σ :=
  match StorageRepository.FindByID rows storageID with
  | .error err => ⟨.ret (some err), rows, [.FindByID], none, none⟩
  | .ok storage =>
    match canView with
    | .error err => ⟨.ret (some err), rows, [.FindByID, .CanUserAccessWorkspace], none, some storage⟩
    | .ok false =>
      ⟨.ret (some (.new "insufficient permissions to test storage in this workspace")), rows,
        [.FindByID, .CanUserAccessWorkspace], none, some storage⟩
    | .ok true =>
      match StorageService.initializeMultiStorage asOperator rows storage with
      | (some err, s0) =>
        ⟨.ret (some err), rows,
          [.FindByID, .CanUserAccessWorkspace, .initializeMultiStorage], none, some s0⟩
      | (none, s0) =>
        match s0.TestConnection with
        | .panic msg =>
          ⟨.panic msg, rows,
            [.FindByID, .CanUserAccessWorkspace, .initializeMultiStorage, .TestConnection],
            none, some s0⟩
        | .nilReceiver k =>
          ⟨.nilReceiver k, rows,
            [.FindByID, .CanUserAccessWorkspace, .initializeMultiStorage, .TestConnection],
            none, some s0⟩
        | .ret run =>
          match run.result with
          | some err =>
            ⟨.ret (some err), rows,
              [.FindByID, .CanUserAccessWorkspace, .initializeMultiStorage, .TestConnection],
              none, some { run.self with LastSaveError := some err.Error }⟩
          | none =>
            let s1 : Storage σ := { run.self with LastSaveError := none }
            match StorageRepository.Save saveFault newID rows s1 with
            | .error err =>
              ⟨.ret (some err), rows,
                [.FindByID, .CanUserAccessWorkspace, .initializeMultiStorage, .TestConnection,
                  .Save], some s1, some s1⟩
            | .ok (s2, rows1) =>
              ⟨.ret none, rows1,
                [.FindByID, .CanUserAccessWorkspace, .initializeMultiStorage, .TestConnection,
                  .Save], some s1, some s2⟩

/-! ## Properties of legs and sample backends -/

/-- A leg keeps what it stored: after a `SaveFile` of a whole file that
returned nil, `GetFile` of the same ID returns that content. -/
def StorageOperator.Faithful (p : StorageOperator σ) : Prop :=
  ∀ (st : σ) (id : UUID) (c : List Nat) (st1 : σ),
    p.SaveFile st id (Reader.ofFile c) = (none, st1) → p.GetFile st1 id = .ok c

/-- The state of the sample in-memory backend: the stored files. -/
abbrev MemState := List (UUID × List Nat)

/-- Sample backend: an in-memory store whose operations succeed whenever the
reader is sound and the file exists. -/
def memLeg (st : MemState) : StorageOperator MemState where
  state := st
  SaveFile := fun st id r =>
    match r.err with
    | some e => (some e, st)
    | none => (none, (id, r.data) :: st.filter (fun kv => kv.1 != id))
  GetFile := fun st id =>
    match st.find? (fun kv => kv.1 == id) with
    | some kv => .ok kv.2
    | none => .error (.new "file not found")
  DeleteFile := fun st id =>
    match st.find? (fun kv => kv.1 == id) with
    | some _ => (none, st.filter (fun kv => kv.1 != id))
    | none => (some (.new "file not found"), st)
  TestConnection := fun _ => none

/-- Sample backend: every operation fails with `e`. -/
def downLeg (e : GoError) (st : MemState) : StorageOperator MemState where
  state := st
  SaveFile := fun st _ _ => (some e, st)
  GetFile := fun _ _ => .error e
  DeleteFile := fun st _ => (some e, st)
  TestConnection := fun _ => some e

/-- Sample engine over two handles. -/
def sampleMulti (primary secondary : Option (StorageOperator MemState)) :
    MultiStorage MemState :=
  ⟨7, 1, 2, primary, secondary⟩

/-- Sample surroundings: live context, empty file system, no failure. -/
def sampleEnv : Env := ⟨none, "/tmp", FS.empty, Faults.none⟩

/-- Sample engine whose primary handle is absent and whose secondary holds
file 42. -/
def primaryAbsent : MultiStorage MemState :=
  sampleMulti none (some (memLeg [(42, [1, 2, 3])]))

/-- Sample engine whose secondary handle is absent and whose primary holds
file 42. -/
def secondaryAbsent : MultiStorage MemState :=
  sampleMulti (some (memLeg [(42, [1, 2, 3])])) none

/-- Sample engine with both legs down. -/
def bothDown : MultiStorage MemState :=
  sampleMulti (some (downLeg (.new "primary down") [])) (some (downLeg (.new "secondary down") []))

/-- Sample payload of a foreign kind: an in-memory store without secrets. -/
def sampleForeign (st : MemState) : ForeignStorage MemState where
  StorageID := 1
  state := st
  SaveFile := (memLeg st).SaveFile
  GetFile := (memLeg st).GetFile
  DeleteFile := (memLeg st).DeleteFile
  Validate := fun _ => none
  TestConnection := fun _ => none
  HideSensitiveData := fun st => st
  EncryptSensitiveData := fun st => (none, st)
  Update := fun _ incoming => incoming

/-- Sample payload of a foreign kind whose backend is down. -/
def downForeign (e : GoError) : ForeignStorage MemState :=
  { sampleForeign [] with
    SaveFile := (downLeg e []).SaveFile
    GetFile := (downLeg e []).GetFile
    DeleteFile := (downLeg e []).DeleteFile
    TestConnection := fun _ => some e }

/-- A record with no variant slot populated. -/
def blankStorage (id workspace : UUID) (type : StorageType) (name : String) : Storage MemState :=
  ⟨id, workspace, type, name, none, none, none, none, none, none, none, none⟩

/-- Sample record of type Local in workspace 9. -/
def localRecord (id : UUID) : Storage MemState :=
  { blankStorage id 9 .Local "local" with LocalStorage := some (sampleForeign []) }

/-- Sample record of type S3 whose backend is down, with an old error text. -/
def brokenRecord : Storage MemState :=
  { blankStorage 5 9 .S3 "s3" with S3Storage := some (downForeign (.new "access denied")) }

/-- Sample record of type Multi in workspace 9 over the records 1 and 2. -/
def multiRecord : Storage MemState :=
  { blankStorage 3 9 .Multi "replicated" with
    LastSaveError := some "old failure"
    MultiStorage := some (sampleMulti (some (memLeg [])) (some (memLeg []))) }

/-- Sample table of parent records. -/
def sampleRows : List (Storage MemState) := [localRecord 1, localRecord 2, multiRecord]

/-- Sample record of type Multi whose Multi slot is absent. -/
def multiSlotAbsent : Storage MemState := blankStorage 4 9 .Multi "replicated"

/-- Sample record with the empty type tag. -/
def emptyTypeRecord : Storage MemState := blankStorage 6 9 (.other "") "untyped"

/-- Sample surroundings in which the operating system refuses the removal
of the staging file. -/
def stickyEnv : Env :=
  ⟨none, "/tmp", FS.empty, { Faults.none with remove := some (.new "operation not permitted") }⟩

/-- Sample incoming record for a create: type Local, nil ID, no workspace
set by the caller. -/
def newLocalRecord : Storage MemState :=
  { blankStorage uuidNil 0 .Local "fresh" with LocalStorage := some (sampleForeign []) }

/-- Sample incoming record for a create whose name is empty. -/
def unnamedRecord : Storage MemState :=
  { blankStorage uuidNil 0 .Local "" with LocalStorage := some (sampleForeign []) }

/-- Sample conversion of a loaded record to a leg: an empty in-memory store. -/
def sampleAsOperator : Storage MemState → StorageOperator MemState := fun _ => memLeg []

/-- Sample stored record of type Local whose last save failed. -/
def staleRecord : Storage MemState :=
  { localRecord 8 with LastSaveError := some "old failure" }

/-! ## Theorems -/

theorem osOpen_write (fs : FS) (path : Path) (c : List Nat) :
    osOpen none (fs.write path c) path = .ok c := by
  simp [osOpen, FS.write]

theorem osOpen_fault (e : GoError) (fs : FS) (path : Path) :
    osOpen (some e) fs path = .error e := rfl

theorem ioCopy_none (fs : FS) (path : Path) (file : Reader) :
    ioCopy none fs path file = (fs.write path file.data, file.err) := by
  unfold ioCopy
  cases file.data <;> rfl

/-- C1: with both legs resolved and the input staged (live context, staging
file created, input fully copied, staged copy reopened), a failure `e` of the
primary leg makes `SaveFile` return the error wrapping `e` ("failed to save
to primary storage: ..."), which carries `e`; the only leg call made is the
primary `SaveFile`, so the secondary leg is never invoked. -/
theorem MultiStorage.SaveFile_primary_failure (m : MultiStorage σ) (p s : StorageOperator σ)
    (env : Env) (fileID : UUID) (file : Reader) (e : GoError)
    (hp : m.Primary = some p) (hs : m.Secondary = some s)
    (hctx : env.ctxErr = none) (hcreate : env.faults.create = none)
    (hwrite : env.faults.write = none) (hread : file.err = none)
    (hopen : env.faults.openPrimary = none)
    (hfail : (p.SaveFile p.state fileID (Reader.ofFile file.data)).1 = some e) :
    (m.SaveFile env fileID file).err = some (.wrapf "failed to save to primary storage: " e)
      ∧ (GoError.wrapf "failed to save to primary storage: " e).Carries e
      ∧ (m.SaveFile env fileID file).calls = [.SaveFile .primary fileID file.data]
      ∧ ∀ c ∈ (m.SaveFile env fileID file).calls, c.leg ≠ .secondary := by
  have hrun : m.SaveFile env fileID file =
      ⟨some (.wrapf "failed to save to primary storage: " e),
        { m with Primary := some { p with
            state := (p.SaveFile p.state fileID (Reader.ofFile file.data)).2 } },
        [.SaveFile .primary fileID file.data],
        osRemove env.faults.remove
          ((env.fs.write (tempFilePath env fileID) []).write (tempFilePath env fileID) file.data)
          (tempFilePath env fileID)⟩ := by
    simp only [MultiStorage.SaveFile, hp, hs, hctx, hcreate, osCreate, MultiStorage.saveStaged,
      hwrite, hread, hopen, ioCopy_none, osOpen_write, hfail]
  rw [hrun]
  refine ⟨rfl, ?_, rfl, ?_⟩
  · cases e <;> simp [GoError.Carries, GoError.chain]
  · intro c hc
    simp only [List.mem_singleton] at hc
    subst hc
    simp [LegCall.leg]

/-- C1 witness: primary down, secondary an empty in-memory store. -/
theorem MultiStorage.SaveFile_primary_failure_witness :
    ((sampleMulti (some (downLeg (.new "disk full") [])) (some (memLeg []))).SaveFile
        sampleEnv 42 ⟨[1, 2, 3], none⟩).err
      = some (.wrapf "failed to save to primary storage: " (.new "disk full"))
    ∧ (GoError.wrapf "failed to save to primary storage: " (.new "disk full")).Carries
        (.new "disk full")
    ∧ ((sampleMulti (some (downLeg (.new "disk full") [])) (some (memLeg []))).SaveFile
        sampleEnv 42 ⟨[1, 2, 3], none⟩).calls = [.SaveFile .primary 42 [1, 2, 3]]
    ∧ ∀ c ∈ ((sampleMulti (some (downLeg (.new "disk full") [])) (some (memLeg []))).SaveFile
        sampleEnv 42 ⟨[1, 2, 3], none⟩).calls, c.leg ≠ .secondary :=
  MultiStorage.SaveFile_primary_failure
    (sampleMulti (some (downLeg (.new "disk full") [])) (some (memLeg [])))
    (downLeg (.new "disk full") []) (memLeg []) sampleEnv 42 ⟨[1, 2, 3], none⟩
    (.new "disk full") rfl rfl rfl rfl rfl rfl rfl rfl

theorem GoError.carries_wrapf (pre : String) (e : GoError) : (GoError.wrapf pre e).Carries e := by
  cases e <;> simp [GoError.Carries, GoError.chain]

theorem ioCopy_eq_of_ok (fault : Option GoError) (fs : FS) (path : Path) (file : Reader)
    (h : (ioCopy fault fs path file).2 = none) :
    ioCopy fault fs path file = (fs.write path file.data, none) ∧ file.err = none := by
  unfold ioCopy at h ⊢
  rcases hd : file.data with _ | ⟨b, bs⟩ <;> rcases hf : fault with _ | e <;>
    simp_all

/-- C2: with both legs resolved and the input staged, when the primary leg
accepts the file and the secondary leg fails with `e`, `SaveFile` returns the
error wrapping `e` ("failed to save to secondary storage: ..."), which
carries `e`; the primary leg was called first with the file ID and the whole
input, and a primary leg that keeps what it stores returns that content on a
direct `GetFile` afterwards. -/
theorem MultiStorage.SaveFile_secondary_failure (m : MultiStorage σ) (p s : StorageOperator σ)
    (env : Env) (fileID : UUID) (file : Reader) (e : GoError)
    (hp : m.Primary = some p) (hs : m.Secondary = some s)
    (hctx : env.ctxErr = none) (hcreate : env.faults.create = none)
    (hwrite : env.faults.write = none) (hread : file.err = none)
    (hopen1 : env.faults.openPrimary = none) (hopen2 : env.faults.openSecondary = none)
    (hok : (p.SaveFile p.state fileID (Reader.ofFile file.data)).1 = none)
    (hfail : (s.SaveFile s.state fileID (Reader.ofFile file.data)).1 = some e) :
    (m.SaveFile env fileID file).err = some (.wrapf "failed to save to secondary storage: " e)
      ∧ (GoError.wrapf "failed to save to secondary storage: " e).Carries e
      ∧ (m.SaveFile env fileID file).calls
          = [.SaveFile .primary fileID file.data, .SaveFile .secondary fileID file.data]
      ∧ ∃ p1, (m.SaveFile env fileID file).self.Primary = some p1
          ∧ (p.Faithful → p1.GetFile p1.state fileID = .ok file.data) := by
  have hrun : m.SaveFile env fileID file =
      ⟨some (.wrapf "failed to save to secondary storage: " e),
        { m with
          Primary := some { p with
            state := (p.SaveFile p.state fileID (Reader.ofFile file.data)).2 },
          Secondary := some { s with
            state := (s.SaveFile s.state fileID (Reader.ofFile file.data)).2 } },
        [.SaveFile .primary fileID file.data, .SaveFile .secondary fileID file.data],
        osRemove env.faults.remove
          ((env.fs.write (tempFilePath env fileID) []).write (tempFilePath env fileID) file.data)
          (tempFilePath env fileID)⟩ := by
    simp only [MultiStorage.SaveFile, hp, hs, hctx, hcreate, osCreate, MultiStorage.saveStaged,
      hwrite, hread, hopen1, hopen2, ioCopy_none, osOpen_write, hok, hfail]
  rw [hrun]
  refine ⟨rfl, GoError.carries_wrapf _ e, rfl, _, rfl, ?_⟩
  intro hfaith
  exact hfaith p.state fileID file.data _ (Prod.ext hok rfl)

/-- C2 witness: primary an in-memory store, secondary down. -/
theorem MultiStorage.SaveFile_secondary_failure_witness :
    ((sampleMulti (some (memLeg [])) (some (downLeg (.new "quota") []))).SaveFile
        sampleEnv 43 ⟨[1, 2, 3], none⟩).err
      = some (.wrapf "failed to save to secondary storage: " (.new "quota"))
    ∧ (GoError.wrapf "failed to save to secondary storage: " (.new "quota")).Carries
        (.new "quota")
    ∧ ((sampleMulti (some (memLeg [])) (some (downLeg (.new "quota") []))).SaveFile
        sampleEnv 43 ⟨[1, 2, 3], none⟩).calls
      = [.SaveFile .primary 43 [1, 2, 3], .SaveFile .secondary 43 [1, 2, 3]]
    ∧ ∃ p1, ((sampleMulti (some (memLeg [])) (some (downLeg (.new "quota") []))).SaveFile
        sampleEnv 43 ⟨[1, 2, 3], none⟩).self.Primary = some p1
      ∧ ((memLeg []).Faithful → p1.GetFile p1.state 43 = .ok [1, 2, 3]) :=
  MultiStorage.SaveFile_secondary_failure
    (sampleMulti (some (memLeg [])) (some (downLeg (.new "quota") [])))
    (memLeg []) (downLeg (.new "quota") []) sampleEnv 43 ⟨[1, 2, 3], none⟩
    (.new "quota") rfl rfl rfl rfl rfl rfl rfl rfl rfl rfl

/-- C3: whenever `SaveFile` returns nil, both legs were resolved, the input
stream ended without error, and the leg calls made are exactly the primary
`SaveFile` followed by the secondary `SaveFile`, each once, with the given
file ID and the whole input; afterwards a direct `GetFile` on either leg
returns the input content, provided that leg keeps what it stores. -/
theorem MultiStorage.SaveFile_round_trip (m : MultiStorage σ) (env : Env) (fileID : UUID)
    (file : Reader) (h : (m.SaveFile env fileID file).err = none) :
    file.err = none
      ∧ (m.SaveFile env fileID file).calls
          = [.SaveFile .primary fileID file.data, .SaveFile .secondary fileID file.data]
      ∧ ∃ p s p1 s1, m.Primary = some p ∧ m.Secondary = some s
          ∧ (m.SaveFile env fileID file).self.Primary = some p1
          ∧ (m.SaveFile env fileID file).self.Secondary = some s1
          ∧ (p.Faithful → p1.GetFile p1.state fileID = .ok file.data)
          ∧ (s.Faithful → s1.GetFile s1.state fileID = .ok file.data) := by
  rcases hP : m.Primary with _ | p
  · simp [MultiStorage.SaveFile, hP] at h
  rcases hS : m.Secondary with _ | s
  · simp [MultiStorage.SaveFile, hP, hS] at h
  rcases hctx : env.ctxErr with _ | e0
  swap
  · simp [MultiStorage.SaveFile, hP, hS, hctx] at h
  rcases hcr : env.faults.create with _ | e0
  swap
  · simp [MultiStorage.SaveFile, hP, hS, hctx, hcr, osCreate] at h
  rcases hcopy : (ioCopy env.faults.write (env.fs.write (tempFilePath env fileID) [])
      (tempFilePath env fileID) file).2 with _ | e0
  swap
  · have : ioCopy env.faults.write (env.fs.write (tempFilePath env fileID) [])
        (tempFilePath env fileID) file
        = ((ioCopy env.faults.write (env.fs.write (tempFilePath env fileID) [])
            (tempFilePath env fileID) file).1, some e0) := Prod.ext rfl hcopy
    simp only [MultiStorage.SaveFile, hP, hS, hctx, hcr, osCreate, MultiStorage.saveStaged] at h
    rw [this] at h
    simp at h
  obtain ⟨hio, hread⟩ := ioCopy_eq_of_ok _ _ _ _ hcopy
  rcases ho1 : env.faults.openPrimary with _ | e0
  swap
  · simp [MultiStorage.SaveFile, hP, hS, hctx, hcr, osCreate, MultiStorage.saveStaged, hio,
      ho1, osOpen_fault] at h
  rcases h1 : (p.SaveFile p.state fileID (Reader.ofFile file.data)).1 with _ | e0
  swap
  · simp [MultiStorage.SaveFile, hP, hS, hctx, hcr, osCreate, MultiStorage.saveStaged, hio,
      ho1, osOpen_write, h1] at h
  rcases ho2 : env.faults.openSecondary with _ | e0
  swap
  · simp [MultiStorage.SaveFile, hP, hS, hctx, hcr, osCreate, MultiStorage.saveStaged, hio,
      ho1, osOpen_write, h1, ho2, osOpen_fault] at h
  rcases h2 : (s.SaveFile s.state fileID (Reader.ofFile file.data)).1 with _ | e0
  swap
  · simp [MultiStorage.SaveFile, hP, hS, hctx, hcr, osCreate, MultiStorage.saveStaged, hio,
      ho1, osOpen_write, h1, ho2, h2] at h
  have hrun : m.SaveFile env fileID file =
      ⟨none,
        { m with
          Primary := some { p with
            state := (p.SaveFile p.state fileID (Reader.ofFile file.data)).2 },
          Secondary := some { s with
            state := (s.SaveFile s.state fileID (Reader.ofFile file.data)).2 } },
        [.SaveFile .primary fileID file.data, .SaveFile .secondary fileID file.data],
        osRemove env.faults.remove
          ((env.fs.write (tempFilePath env fileID) []).write (tempFilePath env fileID) file.data)
          (tempFilePath env fileID)⟩ := by
    simp only [MultiStorage.SaveFile, hP, hS, hctx, hcr, osCreate, MultiStorage.saveStaged,
      hio, ho1, ho2, osOpen_write, h1, h2]
  rw [hrun]
  refine ⟨hread, rfl, p, s, _, _, rfl, rfl, rfl, rfl, ?_, ?_⟩
  · intro hfaith
    exact hfaith p.state fileID file.data _ (Prod.ext h1 rfl)
  · intro hfaith
    exact hfaith s.state fileID file.data _ (Prod.ext h2 rfl)

/-- C3 witness: both legs in-memory stores, content "hello". -/
theorem MultiStorage.SaveFile_round_trip_witness :
    (⟨[104, 101, 108, 108, 111], none⟩ : Reader).err = none
    ∧ ((sampleMulti (some (memLeg [])) (some (memLeg []))).SaveFile sampleEnv 42
          ⟨[104, 101, 108, 108, 111], none⟩).calls
        = [.SaveFile .primary 42 (⟨[104, 101, 108, 108, 111], none⟩ : Reader).data,
           .SaveFile .secondary 42 (⟨[104, 101, 108, 108, 111], none⟩ : Reader).data]
    ∧ ∃ p s p1 s1, (sampleMulti (some (memLeg [])) (some (memLeg []))).Primary = some p
        ∧ (sampleMulti (some (memLeg [])) (some (memLeg []))).Secondary = some s
        ∧ ((sampleMulti (some (memLeg [])) (some (memLeg []))).SaveFile sampleEnv 42
            ⟨[104, 101, 108, 108, 111], none⟩).self.Primary = some p1
        ∧ ((sampleMulti (some (memLeg [])) (some (memLeg []))).SaveFile sampleEnv 42
            ⟨[104, 101, 108, 108, 111], none⟩).self.Secondary = some s1
        ∧ (p.Faithful → p1.GetFile p1.state 42
            = .ok (⟨[104, 101, 108, 108, 111], none⟩ : Reader).data)
        ∧ (s.Faithful → s1.GetFile s1.state 42
            = .ok (⟨[104, 101, 108, 108, 111], none⟩ : Reader).data) :=
  MultiStorage.SaveFile_round_trip (sampleMulti (some (memLeg [])) (some (memLeg [])))
    sampleEnv 42 ⟨[104, 101, 108, 108, 111], none⟩ rfl

theorem memLeg_faithful (st : MemState) : (memLeg st).Faithful := by
  intro st0 id c st1 h
  simp only [memLeg, Reader.ofFile, Prod.mk.injEq, true_and] at h
  subst h
  simp [memLeg]

/-- C4: with both legs resolved, when the primary `GetFile` succeeds the
engine returns the primary stream and the only leg call is that primary
`GetFile` (the secondary is not consulted); when the primary `GetFile` fails
and the secondary succeeds the engine returns the secondary stream, no
error. -/
theorem MultiStorage.GetFile_failover (m : MultiStorage σ) (p s : StorageOperator σ)
    (fileID : UUID) (hp : m.Primary = some p) (hs : m.Secondary = some s) :
    (∀ r, p.GetFile p.state fileID = .ok r →
        (m.GetFile fileID).result = .ok r
          ∧ (m.GetFile fileID).calls = [.GetFile .primary fileID]
          ∧ ∀ c ∈ (m.GetFile fileID).calls, c.leg ≠ .secondary)
      ∧ (∀ e1 r, p.GetFile p.state fileID = .error e1 → s.GetFile s.state fileID = .ok r →
        (m.GetFile fileID).result = .ok r
          ∧ (m.GetFile fileID).calls = [.GetFile .primary fileID, .GetFile .secondary fileID]) := by
  constructor
  · intro r h1
    simp [MultiStorage.GetFile, hp, h1, LegCall.leg]
  · intro e1 r h1 h2
    simp [MultiStorage.GetFile, hp, hs, h1, h2]

/-- C4 witness: primary down, secondary holds file 42. -/
theorem MultiStorage.GetFile_failover_witness :
    ((sampleMulti (some (downLeg (.new "primary down") [])) (some (memLeg [(42, [1, 2, 3])]))).GetFile
        42).result = .ok [1, 2, 3]
    ∧ ((sampleMulti (some (downLeg (.new "primary down") []))
        (some (memLeg [(42, [1, 2, 3])]))).GetFile 42).calls
      = [.GetFile .primary 42, .GetFile .secondary 42] :=
  (MultiStorage.GetFile_failover
    (sampleMulti (some (downLeg (.new "primary down") [])) (some (memLeg [(42, [1, 2, 3])])))
    (downLeg (.new "primary down") []) (memLeg [(42, [1, 2, 3])]) 42 rfl rfl).2
    (.new "primary down") [1, 2, 3] rfl rfl

/-- C5: evaluation at the failing input. With both legs resolved, the primary
`GetFile` failing with "primary down" and the secondary with "secondary
down", the engine returns an error whose text is "failed to get file from
both storages: secondary down": it wraps the secondary cause only and does
not carry the primary cause. -/
theorem MultiStorage.GetFile_both_fail_drops_primary :
    (bothDown.GetFile 42).result
        = .error (.wrapf "failed to get file from both storages: " (.new "secondary down"))
      ∧ (GoError.wrapf "failed to get file from both storages: " (.new "secondary down")).Error
        = "failed to get file from both storages: secondary down"
      ∧ (GoError.wrapf "failed to get file from both storages: " (.new "secondary down")).Carries
        (.new "secondary down")
      ∧ ¬ (GoError.wrapf "failed to get file from both storages: " (.new "secondary down")).Carries
        (.new "primary down") := by
  refine ⟨rfl, by decide, by decide, by decide⟩

/-- C6: with both legs resolved, `DeleteFile` calls `DeleteFile` on the
primary and then on the secondary, exactly once each whatever the other
returned, and it returns an error exactly when both leg deletes failed. -/
theorem MultiStorage.DeleteFile_best_effort (m : MultiStorage σ) (p s : StorageOperator σ)
    (fileID : UUID) (hp : m.Primary = some p) (hs : m.Secondary = some s) :
    (m.DeleteFile fileID).calls = [.DeleteFile .primary fileID, .DeleteFile .secondary fileID]
      ∧ ((m.DeleteFile fileID).result ≠ none ↔
          (p.DeleteFile p.state fileID).1 ≠ none ∧ (s.DeleteFile s.state fileID).1 ≠ none) := by
  rcases h1 : (p.DeleteFile p.state fileID).1 with _ | e1 <;>
    rcases h2 : (s.DeleteFile s.state fileID).1 with _ | e2 <;>
    simp [MultiStorage.DeleteFile, hp, hs, h1, h2]

/-- C6 witness: primary down, secondary holds file 42: no error. -/
theorem MultiStorage.DeleteFile_best_effort_witness :
    ((sampleMulti (some (downLeg (.new "primary down") [])) (some (memLeg [(42, [1, 2, 3])]))).DeleteFile
        42).calls = [.DeleteFile .primary 42, .DeleteFile .secondary 42]
    ∧ (((sampleMulti (some (downLeg (.new "primary down") []))
        (some (memLeg [(42, [1, 2, 3])]))).DeleteFile 42).result ≠ none ↔
      ((downLeg (.new "primary down") []).DeleteFile (downLeg (.new "primary down") []).state 42).1
          ≠ none
        ∧ ((memLeg [(42, [1, 2, 3])]).DeleteFile (memLeg [(42, [1, 2, 3])]).state 42).1 ≠ none) :=
  MultiStorage.DeleteFile_best_effort
    (sampleMulti (some (downLeg (.new "primary down") [])) (some (memLeg [(42, [1, 2, 3])])))
    (downLeg (.new "primary down") []) (memLeg [(42, [1, 2, 3])]) 42 rfl rfl

/-- C7 counterexample: with the primary handle absent `DeleteFile` returns
nil and calls the secondary leg; with the secondary handle absent `GetFile`
calls the primary leg and returns its stream without error. -/
theorem MultiStorage.unresolved_not_always_rejected :
    primaryAbsent.Primary = none
      ∧ (primaryAbsent.DeleteFile 42).result = none
      ∧ (primaryAbsent.DeleteFile 42).calls = [.DeleteFile .secondary 42]
      ∧ secondaryAbsent.Secondary = none
      ∧ (secondaryAbsent.GetFile 42).result = .ok [1, 2, 3]
      ∧ (secondaryAbsent.GetFile 42).calls = [.GetFile .primary 42] := by
  refine ⟨rfl, rfl, rfl, rfl, rfl, rfl⟩

/-- C7 as amended: when a handle is absent, `SaveFile` and `TestConnection`
return "multi-storage not properly initialized" and call no leg; `GetFile`
does so when the primary handle is absent, and with the primary present
and the secondary absent it calls the primary `GetFile` only, returning its
stream or wrapping its error; `DeleteFile` calls `DeleteFile` on each handle
that is present, and returns nil. -/
theorem MultiStorage.unresolved_handles (m : MultiStorage σ) (env : Env) (fileID : UUID)
    (file : Reader) (h : m.Primary = none ∨ m.Secondary = none) :
    ((m.SaveFile env fileID file).err = some notInitialized
        ∧ (m.SaveFile env fileID file).calls = [])
      ∧ (m.TestConnection.result = some notInitialized ∧ m.TestConnection.calls = [])
      ∧ (m.Primary = none →
          (m.GetFile fileID).result = .error notInitialized ∧ (m.GetFile fileID).calls = [])
      ∧ (∀ p, m.Primary = some p →
          (m.GetFile fileID).calls = [.GetFile .primary fileID]
          ∧ (m.GetFile fileID).result =
              match p.GetFile p.state fileID with
              | .ok r => .ok r
              | .error e => .error (.wrapf "failed to get file from both storages: " e))
      ∧ (m.DeleteFile fileID).result = none
      ∧ (m.DeleteFile fileID).calls =
          (if m.Primary.isSome then [.DeleteFile .primary fileID] else [])
            ++ (if m.Secondary.isSome then [.DeleteFile .secondary fileID] else []) := by
  rcases hP : m.Primary with _ | p <;> rcases hS : m.Secondary with _ | s
  · simp [MultiStorage.SaveFile, MultiStorage.TestConnection, MultiStorage.GetFile,
      MultiStorage.DeleteFile, hP, hS]
  · simp [MultiStorage.SaveFile, MultiStorage.TestConnection, MultiStorage.GetFile,
      MultiStorage.DeleteFile, hP, hS]
  · refine ⟨?_, ?_, ?_, ?_, ?_, ?_⟩
    · simp [MultiStorage.SaveFile, hP, hS]
    · simp [MultiStorage.TestConnection, hP, hS]
    · intro h0; cases h0
    · intro q hq
      cases hq
      rcases hg : p.GetFile p.state fileID with e | r <;>
        simp [MultiStorage.GetFile, hP, hS, hg]
    · rcases hd : (p.DeleteFile p.state fileID).1 with _ | e <;>
        simp [MultiStorage.DeleteFile, hP, hS, hd]
    · rcases hd : (p.DeleteFile p.state fileID).1 with _ | e <;>
        simp [MultiStorage.DeleteFile, hP, hS, hd]
  · rw [hP, hS] at h
    simp at h

/-- C7 witness (amended claim): the engine whose secondary handle is absent. -/
theorem MultiStorage.unresolved_handles_witness :
    (secondaryAbsent.SaveFile sampleEnv 42 ⟨[1, 2, 3], none⟩).err = some notInitialized
      ∧ (secondaryAbsent.SaveFile sampleEnv 42 ⟨[1, 2, 3], none⟩).calls = [] :=
  (MultiStorage.unresolved_handles secondaryAbsent sampleEnv 42 ⟨[1, 2, 3], none⟩
    (Or.inr rfl)).1

theorem Storage.putForeign_frame (s : Storage σ) (k : StorageType) (v : ForeignStorage σ) :
    (s.putForeign k v).ID = s.ID ∧ (s.putForeign k v).WorkspaceID = s.WorkspaceID
      ∧ (s.putForeign k v).Type_ = s.Type_ ∧ (s.putForeign k v).Name = s.Name := by
  cases k <;> simp [Storage.putForeign]

theorem Storage.recordSave_spec (s : Storage σ) (err : Option GoError) (calls : List LegCall) :
    (s.recordSave err calls).result = err
      ∧ (s.recordSave err calls).self.LastSaveError = err.map GoError.Error
      ∧ (s.recordSave err calls).self.ID = s.ID
      ∧ (s.recordSave err calls).self.WorkspaceID = s.WorkspaceID
      ∧ (s.recordSave err calls).self.Type_ = s.Type_
      ∧ (s.recordSave err calls).self.Name = s.Name := by
  cases err <;> simp [Storage.recordSave]

/-- C8: when the type selects a populated slot (a foreign payload `v`, or a
Multi payload `m`), `Storage.SaveFile` returns what the variant `SaveFile`
returned; `LastSaveError` is that error's message when it failed and absent
when it succeeded; ID, workspace ID, type and name are unchanged. -/
theorem Storage.SaveFile_records_outcome (s : Storage σ) (env : Env) (fileID : UUID)
    (file : Reader) :
    (∀ k v, s.getSpecificStorage = .ret (.foreign k (some v)) →
        ∃ run fs, s.SaveFile env fileID file = .ret (run, fs)
          ∧ run.result = (v.SaveFile v.state fileID file).1
          ∧ run.self.LastSaveError = run.result.map GoError.Error
          ∧ run.self.ID = s.ID ∧ run.self.WorkspaceID = s.WorkspaceID
          ∧ run.self.Type_ = s.Type_ ∧ run.self.Name = s.Name)
      ∧ (∀ m, s.getSpecificStorage = .ret (.multi (some m)) →
        ∃ run fs, s.SaveFile env fileID file = .ret (run, fs)
          ∧ run.result = (m.SaveFile env fileID file).err
          ∧ run.self.LastSaveError = run.result.map GoError.Error
          ∧ run.self.ID = s.ID ∧ run.self.WorkspaceID = s.WorkspaceID
          ∧ run.self.Type_ = s.Type_ ∧ run.self.Name = s.Name) := by
  constructor
  · intro k v h
    refine ⟨(s.putForeign k { v with state := (v.SaveFile v.state fileID file).2 }).recordSave
      (v.SaveFile v.state fileID file).1 [], env.fs, by simp only [Storage.SaveFile, h], ?_⟩
    obtain ⟨h1, h2, h3, h4, h5, h6⟩ := Storage.recordSave_spec
      (s.putForeign k { v with state := (v.SaveFile v.state fileID file).2 })
      (v.SaveFile v.state fileID file).1 []
    obtain ⟨f1, f2, f3, f4⟩ := Storage.putForeign_frame s k
      { v with state := (v.SaveFile v.state fileID file).2 }
    exact ⟨h1, by rw [h2, h1], h3.trans f1, h4.trans f2, h5.trans f3, h6.trans f4⟩
  · intro m h
    refine ⟨Storage.recordSave { s with MultiStorage := some (m.SaveFile env fileID file).self }
      (m.SaveFile env fileID file).err (m.SaveFile env fileID file).calls,
      (m.SaveFile env fileID file).fs, by simp only [Storage.SaveFile, h], ?_⟩
    obtain ⟨h1, h2, h3, h4, h5, h6⟩ := Storage.recordSave_spec
      { s with MultiStorage := some (m.SaveFile env fileID file).self }
      (m.SaveFile env fileID file).err (m.SaveFile env fileID file).calls
    exact ⟨h1, by rw [h2, h1], h3, h4, h5, h6⟩

/-- C8 witness: a record of type S3 whose backend refuses the write. -/
theorem Storage.SaveFile_records_outcome_witness :
    ∃ run fs, brokenRecord.SaveFile sampleEnv 42 ⟨[1, 2, 3], none⟩ = .ret (run, fs)
      ∧ run.result
        = ((downForeign (.new "access denied")).SaveFile (downForeign (.new "access denied")).state
            42 ⟨[1, 2, 3], none⟩).1
      ∧ run.self.LastSaveError = run.result.map GoError.Error
      ∧ run.self.ID = brokenRecord.ID ∧ run.self.WorkspaceID = brokenRecord.WorkspaceID
      ∧ run.self.Type_ = brokenRecord.Type_ ∧ run.self.Name = brokenRecord.Name :=
  (Storage.SaveFile_records_outcome brokenRecord sampleEnv 42 ⟨[1, 2, 3], none⟩).1
    .S3 (downForeign (.new "access denied")) rfl

theorem StorageRepository.FindByID_ok_iff (rows : List (Storage σ)) (id : UUID) (r : Storage σ)
    (hkey : (rows.map (fun x => x.ID)).Nodup) :
    StorageRepository.FindByID rows id = .ok r ↔ r ∈ rows ∧ r.ID = id := by
  unfold StorageRepository.FindByID
  constructor
  · intro h
    rcases hf : rows.find? (fun x => decide (x.ID = id)) with _ | r0
    · simp [hf] at h
    · simp only [hf, Except.ok.injEq] at h
      subst h
      exact ⟨List.mem_of_find?_eq_some hf, by simpa using List.find?_some hf⟩
  · rintro ⟨hmem, hid⟩
    rcases hf : rows.find? (fun x => decide (x.ID = id)) with _ | r0
    · rw [List.find?_eq_none] at hf
      exact absurd hid (by simpa using hf r hmem)
    · have h0 : r0.ID = id := by simpa using List.find?_some hf
      have : r0 = r := List.inj_on_of_nodup_map hkey (List.mem_of_find?_eq_some hf) hmem
        (h0.trans hid.symm)
      simp [hf, this]

theorem StorageRepository.FindByID_error_iff (rows : List (Storage σ)) (id : UUID) :
    (∃ e, StorageRepository.FindByID rows id = .error e) ↔ ∀ r ∈ rows, r.ID ≠ id := by
  unfold StorageRepository.FindByID
  rcases hf : rows.find? (fun x => decide (x.ID = id)) with _ | r0
  · simp only [hf, Except.error.injEq, exists_eq', true_iff]
    rw [List.find?_eq_none] at hf
    simpa using hf
  · simp only [hf, exists_false, false_iff, reduceCtorEq]
    intro h
    exact h r0 (List.mem_of_find?_eq_some hf) (by simpa using List.find?_some hf)

theorem MultiStorage.Validate_eq_none_iff (m : MultiStorage σ) :
    m.Validate = none ↔
      m.PrimaryID ≠ uuidNil ∧ m.SecondaryID ≠ uuidNil ∧ m.PrimaryID ≠ m.SecondaryID := by
  unfold MultiStorage.Validate
  split_ifs <;> simp_all

theorem StorageService.references_eq_none_iff (rows : List (Storage σ)) (st : Storage σ)
    (m : MultiStorage σ) (hkey : (rows.map (fun x => x.ID)).Nodup)
    (ht : st.Type_ = .Multi) (hm : st.MultiStorage = some m) :
    StorageService.ValidateMultiStorageReferences rows st = none ↔
      (∃ p ∈ rows, p.ID = m.PrimaryID ∧ p.Type_ ≠ .Multi ∧ p.WorkspaceID = st.WorkspaceID)
        ∧ (∃ q ∈ rows, q.ID = m.SecondaryID ∧ q.Type_ ≠ .Multi
            ∧ q.WorkspaceID = st.WorkspaceID) := by
  unfold StorageService.ValidateMultiStorageReferences
  simp only [ht, hm, ne_eq, not_true_eq_false, if_false]
  rcases hfp : StorageRepository.FindByID rows m.PrimaryID with e | p
  · have hno := (StorageRepository.FindByID_error_iff rows m.PrimaryID).1 ⟨e, hfp⟩
    simp only [reduceCtorEq, false_iff, not_and]
    rintro ⟨p, hp, hid, -⟩
    exact absurd hid (hno p hp)
  have hp := (StorageRepository.FindByID_ok_iff rows m.PrimaryID p hkey).1 hfp
  have hpu : ∀ x ∈ rows, x.ID = m.PrimaryID → x = p := fun x hx hid =>
    List.inj_on_of_nodup_map hkey hx hp.1 (hid.trans hp.2.symm)
  rcases hfs : StorageRepository.FindByID rows m.SecondaryID with e | q
  · have hno := (StorageRepository.FindByID_error_iff rows m.SecondaryID).1 ⟨e, hfs⟩
    have hrhs : ¬ ∃ q ∈ rows, q.ID = m.SecondaryID ∧ q.Type_ ≠ .Multi
        ∧ q.WorkspaceID = st.WorkspaceID := by
      rintro ⟨q, hq, hid, -⟩
      exact absurd hid (hno q hq)
    by_cases hpt : p.Type_ = .Multi <;> simp [hpt, hrhs]
  have hq := (StorageRepository.FindByID_ok_iff rows m.SecondaryID q hkey).1 hfs
  have hqu : ∀ x ∈ rows, x.ID = m.SecondaryID → x = q := fun x hx hid =>
    List.inj_on_of_nodup_map hkey hx hq.1 (hid.trans hq.2.symm)
  constructor
  · intro h
    by_cases hpt : p.Type_ = .Multi
    · simp [hpt] at h
    by_cases hqt : q.Type_ = .Multi
    · simp [hpt, hqt] at h
    by_cases hpw : p.WorkspaceID = st.WorkspaceID
    swap
    · simp [hpt, hqt, hpw] at h
    by_cases hqw : q.WorkspaceID = st.WorkspaceID
    swap
    · simp [hpt, hqt, hpw, hqw] at h
    exact ⟨⟨p, hp.1, hp.2, hpt, hpw⟩, ⟨q, hq.1, hq.2, hqt, hqw⟩⟩
  · rintro ⟨⟨x, hx, hxid, hxt, hxw⟩, ⟨y, hy, hyid, hyt, hyw⟩⟩
    have ex := hpu x hx hxid
    have ey := hqu y hy hyid
    subst ex
    subst ey
    simp [hxt, hyt, hxw, hyw]

/-- C9: for a record of type Multi with a populated Multi payload, over a
table whose IDs are unique (primary key), `MultiStorage.Validate` and
`ValidateMultiStorageReferences` both return nil exactly when primaryID and
secondaryID are both set, differ, each is the ID of a record of the table
that is not of type Multi and has the workspace ID of the composite. -/
theorem StorageService.multi_validation_iff (rows : List (Storage σ)) (st : Storage σ)
    (m : MultiStorage σ) (hkey : (rows.map (fun x => x.ID)).Nodup)
    (ht : st.Type_ = .Multi) (hm : st.MultiStorage = some m) :
    (m.Validate = none ∧ StorageService.ValidateMultiStorageReferences rows st = none) ↔
      (m.PrimaryID ≠ uuidNil ∧ m.SecondaryID ≠ uuidNil ∧ m.PrimaryID ≠ m.SecondaryID
        ∧ (∃ p ∈ rows, p.ID = m.PrimaryID ∧ p.Type_ ≠ .Multi ∧ p.WorkspaceID = st.WorkspaceID)
        ∧ (∃ q ∈ rows, q.ID = m.SecondaryID ∧ q.Type_ ≠ .Multi
            ∧ q.WorkspaceID = st.WorkspaceID)) := by
  rw [MultiStorage.Validate_eq_none_iff, StorageService.references_eq_none_iff rows st m hkey ht hm]
  constructor
  · rintro ⟨⟨h1, h2, h3⟩, h4, h5⟩
    exact ⟨h1, h2, h3, h4, h5⟩
  · rintro ⟨h1, h2, h3, h4, h5⟩
    exact ⟨⟨h1, h2, h3⟩, h4, h5⟩

/-- C9 witness: the composite record 3 over the Local records 1 and 2 of the
same workspace passes both checks. -/
theorem StorageService.multi_validation_iff_witness :
    (sampleMulti (some (memLeg [])) (some (memLeg []))).Validate = none
      ∧ StorageService.ValidateMultiStorageReferences sampleRows multiRecord = none :=
  (StorageService.multi_validation_iff sampleRows multiRecord
    (sampleMulti (some (memLeg [])) (some (memLeg []))) (by decide) rfl rfl).2
    ⟨by decide, by decide, by decide,
      ⟨localRecord 1, by simp [sampleRows], rfl, by decide, rfl⟩,
      ⟨localRecord 2, by simp [sampleRows], rfl, by decide, rfl⟩⟩

/-- C10 counterexample: `Validate` on a record with the empty type tag
returns the ordinary error "storage type is required" instead of failing
fatally; on a record of type Multi whose Multi slot is absent,
`HideSensitiveData` returns leaving the record as it was and
`EncryptSensitiveData` returns nil. -/
theorem Storage.mismatch_not_always_fatal :
    emptyTypeRecord.getSpecificStorage = .panic "invalid storage type: "
      ∧ emptyTypeRecord.Validate = .ret (some (.new "storage type is required"))
      ∧ multiSlotAbsent.getSpecificStorage = .ret (.multi none)
      ∧ multiSlotAbsent.HideSensitiveData = .ret multiSlotAbsent
      ∧ multiSlotAbsent.EncryptSensitiveData = .ret (none, multiSlotAbsent) := by
  refine ⟨rfl, rfl, rfl, rfl, rfl⟩

/-- C10 as amended: for a type tag that is none of the seven declared tags,
`SaveFile`, `GetFile`, `DeleteFile`, `TestConnection`, `HideSensitiveData`
and `EncryptSensitiveData` panic, and so does `Validate` unless the tag or
the name is empty, in which case it returns the ordinary error "storage type
is required" or "storage name is required"; for type Multi with the Multi
slot absent, `SaveFile`, `GetFile`, `DeleteFile`, `TestConnection` and, for
a non-empty name, `Validate` panic. -/
theorem Storage.mismatch_outcomes (s : Storage σ) (env : Env) (fileID : UUID) (file : Reader) :
    (∀ tag, s.Type_ = .other tag →
        (s.SaveFile env fileID file).Panics ∧ (s.GetFile fileID).Panics
          ∧ (s.DeleteFile fileID).Panics ∧ s.TestConnection.Panics
          ∧ s.HideSensitiveData.Panics ∧ s.EncryptSensitiveData.Panics
          ∧ (tag ≠ "" → s.Name ≠ "" → s.Validate.Panics)
          ∧ (tag = "" → s.Validate = .ret (some (.new "storage type is required")))
          ∧ (tag ≠ "" → s.Name = "" →
              s.Validate = .ret (some (.new "storage name is required"))))
      ∧ (s.Type_ = .Multi → s.MultiStorage = none →
        (s.SaveFile env fileID file).Panics ∧ (s.GetFile fileID).Panics
          ∧ (s.DeleteFile fileID).Panics ∧ s.TestConnection.Panics
          ∧ (s.Name ≠ "" → s.Validate.Panics)) := by
  constructor
  · intro tag ht
    have hg : s.getSpecificStorage = .panic ("invalid storage type: " ++ tag) := by
      simp [Storage.getSpecificStorage, ht]
    refine ⟨?_, ?_, ?_, ?_, ?_, ?_, ?_, ?_, ?_⟩
    · simp [Storage.SaveFile, hg, Outcome.Panics]
    · simp [Storage.GetFile, hg, Outcome.Panics]
    · simp [Storage.DeleteFile, hg, Outcome.Panics]
    · simp [Storage.TestConnection, hg, Outcome.Panics]
    · simp [Storage.HideSensitiveData, hg, Outcome.Panics]
    · simp [Storage.EncryptSensitiveData, hg, Outcome.Panics]
    · intro h1 h2
      simp [Storage.Validate, hg, ht, h1, h2, Outcome.Panics]
    · intro h1
      simp [Storage.Validate, ht, h1]
    · intro h1 h2
      simp [Storage.Validate, ht, h1, h2]
  · intro ht hm
    have hg : s.getSpecificStorage = .ret (.multi none) := by
      simp [Storage.getSpecificStorage, ht, hm]
    refine ⟨?_, ?_, ?_, ?_, ?_⟩
    · simp [Storage.SaveFile, hg, Outcome.Panics]
    · simp [Storage.GetFile, hg, Outcome.Panics]
    · simp [Storage.DeleteFile, hg, Outcome.Panics]
    · simp [Storage.TestConnection, hg, Outcome.Panics]
    · intro h2
      simp [Storage.Validate, hg, ht, h2, Outcome.Panics]

/-- C10 witness (amended claim): a record of type Multi whose slot is
absent. -/
theorem Storage.mismatch_outcomes_witness :
    (multiSlotAbsent.SaveFile sampleEnv 42 ⟨[1, 2, 3], none⟩).Panics
      ∧ (multiSlotAbsent.GetFile 42).Panics ∧ (multiSlotAbsent.DeleteFile 42).Panics
      ∧ multiSlotAbsent.TestConnection.Panics
      ∧ (multiSlotAbsent.Name ≠ "" → multiSlotAbsent.Validate.Panics) :=
  (Storage.mismatch_outcomes multiSlotAbsent sampleEnv 42 ⟨[1, 2, 3], none⟩).2 rfl rfl

theorem Storage.Update_type (s i : Storage σ) : (s.Update i).Type_ = i.Type_ := by
  unfold Storage.Update
  split <;> (try split) <;> rfl

theorem Storage.Update_populatedSlots (s i : Storage σ) :
    (s.Update i).populatedSlots = s.populatedSlots := by
  unfold Storage.Update
  split <;> (try split) <;> simp_all [Storage.populatedSlots]

/-- C12 counterexample: a persisted record of type Local updated with an
incoming record of type S3, each with exactly its own slot populated, ends
with type S3 while the Local slot is the one populated. -/
theorem Storage.Update_breaks_type_slot_agreement :
    (localRecord 1).TypeMatchesSlot ∧ brokenRecord.TypeMatchesSlot
      ∧ ((localRecord 1).Update brokenRecord).Type_ = .S3
      ∧ ((localRecord 1).Update brokenRecord).populatedSlots = [.Local]
      ∧ ¬ ((localRecord 1).Update brokenRecord).TypeMatchesSlot := by
  refine ⟨by decide, by decide, rfl, by decide, by decide⟩

/-- C12 as amended: for a persisted record `s` and an incoming record `i`
that each have exactly their own slot populated, after `s.Update(i)` the
record carries the type of `i` and has the same slot populated as before;
type and populated slot still agree exactly when `i` has the type of `s`. -/
theorem Storage.Update_type_slot (s i : Storage σ) (hs : s.TypeMatchesSlot)
    (_hi : i.TypeMatchesSlot) :
    (s.Update i).Type_ = i.Type_
      ∧ (s.Update i).populatedSlots = s.populatedSlots
      ∧ ((s.Update i).TypeMatchesSlot ↔ i.Type_ = s.Type_) := by
  refine ⟨Storage.Update_type s i, Storage.Update_populatedSlots s i, ?_⟩
  unfold Storage.TypeMatchesSlot at hs ⊢
  rw [Storage.Update_type, Storage.Update_populatedSlots, hs]
  constructor
  · intro h
    exact (List.cons.inj h).1.symm
  · intro h
    rw [h]

/-- C12 witness (amended claim): a Local record updated with a Local
record. -/
theorem Storage.Update_type_slot_witness :
    ((localRecord 1).Update (localRecord 2)).Type_ = (localRecord 2).Type_
      ∧ ((localRecord 1).Update (localRecord 2)).populatedSlots = (localRecord 1).populatedSlots
      ∧ (((localRecord 1).Update (localRecord 2)).TypeMatchesSlot
          ↔ (localRecord 2).Type_ = (localRecord 1).Type_) :=
  Storage.Update_type_slot (localRecord 1) (localRecord 2) (by decide) (by decide)

theorem MultiStorage.saveStaged_fs (m : MultiStorage σ) (p s : StorageOperator σ)
    (faults : Faults) (fs : FS) (path : Path) (fileID : UUID) (file : Reader) :
    (m.saveStaged p s faults fs path fileID file).fs = (ioCopy faults.write fs path file).1 := by
  unfold MultiStorage.saveStaged
  rcases ioCopy faults.write fs path file with ⟨fs1, _ | e⟩
  · simp only
    rcases osOpen faults.openPrimary fs1 path with e1 | c1
    · rfl
    · simp only
      rcases (p.SaveFile p.state fileID (Reader.ofFile c1)).1 with _ | e2
      · simp only
        rcases osOpen faults.openSecondary fs1 path with e3 | c2
        · rfl
        · simp only
          rcases (s.SaveFile s.state fileID (Reader.ofFile c2)).1 with _ | e4 <;> rfl
      · rfl
  · rfl

theorem ioCopy_keeps_file (fault : Option GoError) (fs : FS) (path : Path) (file : Reader)
    (h : fs path ≠ none) : (ioCopy fault fs path file).1 path ≠ none := by
  unfold ioCopy
  split
  · exact h
  · simp [FS.write]

/-- C13 counterexample: a run that creates the staging file and succeeds on
both legs, in which the operating system refuses `os.Remove`: the error is
discarded and the staging file still exists, with the staged content, when
`SaveFile` returns. -/
theorem MultiStorage.SaveFile_staging_file_left_behind :
    ((sampleMulti (some (memLeg [])) (some (memLeg []))).SaveFile stickyEnv 42
        ⟨[1, 2, 3], none⟩).err = none
      ∧ ((sampleMulti (some (memLeg [])) (some (memLeg []))).SaveFile stickyEnv 42
        ⟨[1, 2, 3], none⟩).fs (tempFilePath stickyEnv 42) = some [1, 2, 3] := by
  refine ⟨rfl, rfl⟩

/-- C13 as amended: in every run that created the staging file (both legs
resolved, live context, `os.Create` succeeded), whatever happens afterwards
(input copy failure, reopen failure, primary failure, secondary failure,
success), the deferred `os.Remove` is applied to the staging path, where the
file then exists; the staging file no longer exists at return exactly when
that removal went through, its error being discarded otherwise. -/
theorem MultiStorage.SaveFile_staging_removal (m : MultiStorage σ) (p s : StorageOperator σ)
    (env : Env) (fileID : UUID) (file : Reader)
    (hp : m.Primary = some p) (hs : m.Secondary = some s)
    (hctx : env.ctxErr = none) (hcreate : env.faults.create = none) :
    (∃ fs1, fs1 (tempFilePath env fileID) ≠ none
        ∧ (m.SaveFile env fileID file).fs
          = osRemove env.faults.remove fs1 (tempFilePath env fileID))
      ∧ ((m.SaveFile env fileID file).fs (tempFilePath env fileID) = none
          ↔ env.faults.remove = none) := by
  have hfs : (m.SaveFile env fileID file).fs
      = osRemove env.faults.remove
          (ioCopy env.faults.write (env.fs.write (tempFilePath env fileID) [])
            (tempFilePath env fileID) file).1 (tempFilePath env fileID) := by
    simp only [MultiStorage.SaveFile, hp, hs, hctx, hcreate, osCreate,
      MultiStorage.saveStaged_fs]
  have hex : (ioCopy env.faults.write (env.fs.write (tempFilePath env fileID) [])
      (tempFilePath env fileID) file).1 (tempFilePath env fileID) ≠ none :=
    ioCopy_keeps_file _ _ _ _ (by simp [FS.write])
  refine ⟨⟨_, hex, hfs⟩, ?_⟩
  rw [hfs]
  rcases hr : env.faults.remove with _ | e
  · simp [osRemove, FS.unlink]
  · simp only [osRemove, reduceCtorEq, iff_false]
    exact hex

/-- C13 witness (amended claim): a run without any failure on two in-memory
legs. -/
theorem MultiStorage.SaveFile_staging_removal_witness :
    ((sampleMulti (some (memLeg [])) (some (memLeg []))).SaveFile sampleEnv 42
        ⟨[1, 2, 3], none⟩).fs (tempFilePath sampleEnv 42) = none
      ↔ sampleEnv.faults.remove = none :=
  (MultiStorage.SaveFile_staging_removal (sampleMulti (some (memLeg [])) (some (memLeg [])))
    (memLeg []) (memLeg []) sampleEnv 42 ⟨[1, 2, 3], none⟩ rfl rfl rfl rfl).2

theorem StorageService.encryptValidateSave_spec (saveFault : Option GoError) (newID : UUID)
    (rows : List (Storage σ)) (entity : Storage σ) (pre : List ServiceStep) (audit : String)
    (hpre : ServiceStep.Save ∉ pre) :
    (ServiceStep.Save ∉ (StorageService.encryptValidateSave saveFault newID rows entity pre
          audit).log →
        (StorageService.encryptValidateSave saveFault newID rows entity pre audit).rows = rows
        ∧ (StorageService.encryptValidateSave saveFault newID rows entity pre audit).saveArg
          = none)
      ∧ (ServiceStep.Save ∈ (StorageService.encryptValidateSave saveFault newID rows entity pre
          audit).log →
        ∃ encrypted post,
          (StorageService.encryptValidateSave saveFault newID rows entity pre audit).log
            = pre ++ [.EncryptSensitiveData, .Validate, .ValidateMultiStorageReferences, .Save]
                ++ post
          ∧ entity.EncryptSensitiveData = .ret (none, encrypted)
          ∧ encrypted.Validate = .ret none
          ∧ StorageService.ValidateMultiStorageReferences rows encrypted = none
          ∧ (StorageService.encryptValidateSave saveFault newID rows entity pre audit).saveArg
            = some encrypted)
      ∧ (∀ err,
          ((∃ enc, entity.EncryptSensitiveData = .ret (some err, enc))
            ∨ (∃ enc, entity.EncryptSensitiveData = .ret (none, enc)
                ∧ (enc.Validate = .ret (some err)
                  ∨ (enc.Validate = .ret none
                    ∧ StorageService.ValidateMultiStorageReferences rows enc = some err)))) →
          (StorageService.encryptValidateSave saveFault newID rows entity pre audit).outcome
              = .ret (some err)
            ∧ (StorageService.encryptValidateSave saveFault newID rows entity pre audit).rows
              = rows
            ∧ ServiceStep.Save ∉
              (StorageService.encryptValidateSave saveFault newID rows entity pre audit).log) := by
  rcases hE : entity.EncryptSensitiveData with ⟨_ | e, e1⟩ | msg | k
  · rcases hV : e1.Validate with (_ | e) | msg | k
    · rcases hR : StorageService.ValidateMultiStorageReferences rows e1 with _ | e
      · rcases hS : StorageRepository.Save saveFault newID rows e1 with e | ⟨e2, rows1⟩
        · refine ⟨?_, ?_, ?_⟩
          · intro h
            simp [StorageService.encryptValidateSave, hE, hV, hR, hS] at h
          · intro _
            refine ⟨e1, [], ?_, rfl, hV, hR, ?_⟩ <;>
              simp [StorageService.encryptValidateSave, hE, hV, hR, hS]
          · intro err h
            simp [hV, hR] at h
        · refine ⟨?_, ?_, ?_⟩
          · intro h
            simp [StorageService.encryptValidateSave, hE, hV, hR, hS] at h
          · intro _
            refine ⟨e1, [.WriteAuditLog (audit ++ e2.Name)], ?_, rfl, hV, hR, ?_⟩ <;>
              simp [StorageService.encryptValidateSave, hE, hV, hR, hS]
          · intro err h
            simp [hV, hR] at h
      · refine ⟨?_, ?_, ?_⟩
        · intro _
          simp [StorageService.encryptValidateSave, hE, hV, hR]
        · intro h
          simp [StorageService.encryptValidateSave, hE, hV, hR, hpre] at h
        · intro err h
          simp [hV, hR] at h
          subst h
          simp [StorageService.encryptValidateSave, hE, hV, hR, hpre]
    · refine ⟨?_, ?_, ?_⟩
      · intro _
        simp [StorageService.encryptValidateSave, hE, hV]
      · intro h
        simp [StorageService.encryptValidateSave, hE, hV, hpre] at h
      · intro err h
        simp [hV] at h
        subst h
        simp [StorageService.encryptValidateSave, hE, hV, hpre]
    · refine ⟨?_, ?_, ?_⟩
      · intro _
        simp [StorageService.encryptValidateSave, hE, hV]
      · intro h
        simp [StorageService.encryptValidateSave, hE, hV, hpre] at h
      · intro err h
        simp [hV] at h
    · refine ⟨?_, ?_, ?_⟩
      · intro _
        simp [StorageService.encryptValidateSave, hE, hV]
      · intro h
        simp [StorageService.encryptValidateSave, hE, hV, hpre] at h
      · intro err h
        simp [hV] at h
  · refine ⟨?_, ?_, ?_⟩
    · intro _
      simp [StorageService.encryptValidateSave, hE]
    · intro h
      simp [StorageService.encryptValidateSave, hE, hpre] at h
    · intro err h
      simp at h
      subst h
      simp [StorageService.encryptValidateSave, hE, hpre]
  · refine ⟨?_, ?_, ?_⟩
    · intro _
      simp [StorageService.encryptValidateSave, hE]
    · intro h
      simp [StorageService.encryptValidateSave, hE, hpre] at h
    · intro err h
      simp at h
  · refine ⟨?_, ?_, ?_⟩
    · intro _
      simp [StorageService.encryptValidateSave, hE]
    · intro h
      simp [StorageService.encryptValidateSave, hE, hpre] at h
    · intro err h
      simp at h

/-- C11: in every run `r` of `SaveStorage`: (1) unless the repository `Save`
was invoked the table is unchanged; (2) when `Save` was invoked, the steps
before it were, in this order, the merge (`Update`, on the update path only),
`EncryptSensitiveData`, `Validate` and the reference check, each of which
succeeded on the same entity (the merged existing record, or the incoming
record with its workspace set), and `Save` received that entity as encrypted;
(3) when one of the three checks returns an error on that entity, this error
is returned, `Save` is not invoked and the table is unchanged. -/
theorem StorageService.SaveStorage_checks_before_save (canManage : Except GoError Bool)
    (saveFault : Option GoError) (newID : UUID) (rows : List (Storage σ)) (workspaceID : UUID)
    (storage : Storage σ) (r : ServiceRun σ)
    (hr : StorageService.SaveStorage canManage saveFault newID rows workspaceID storage = r) :
    (ServiceStep.Save ∉ r.log → r.rows = rows ∧ r.saveArg = none)
      ∧ (ServiceStep.Save ∈ r.log →
        ∃ entity encrypted pre post,
          r.log = pre ++ [.EncryptSensitiveData, .Validate, .ValidateMultiStorageReferences, .Save]
              ++ post
          ∧ ((storage.ID ≠ uuidNil ∧ pre = [.CanUserManageDBs, .FindByID, .Update]
                ∧ ∃ existing, StorageRepository.FindByID rows storage.ID = .ok existing
                    ∧ entity = existing.Update storage)
              ∨ (storage.ID = uuidNil ∧ pre = [.CanUserManageDBs]
                ∧ entity = { storage with WorkspaceID := workspaceID }))
          ∧ entity.EncryptSensitiveData = .ret (none, encrypted)
          ∧ encrypted.Validate = .ret none
          ∧ StorageService.ValidateMultiStorageReferences rows encrypted = none
          ∧ r.saveArg = some encrypted)
      ∧ (∀ entity err, canManage = .ok true →
          ((storage.ID ≠ uuidNil
              ∧ ∃ existing, StorageRepository.FindByID rows storage.ID = .ok existing
                  ∧ existing.WorkspaceID = workspaceID ∧ entity = existing.Update storage)
            ∨ (storage.ID = uuidNil ∧ entity = { storage with WorkspaceID := workspaceID })) →
          ((∃ enc, entity.EncryptSensitiveData = .ret (some err, enc))
            ∨ (∃ enc, entity.EncryptSensitiveData = .ret (none, enc)
                ∧ (enc.Validate = .ret (some err)
                  ∨ (enc.Validate = .ret none
                    ∧ StorageService.ValidateMultiStorageReferences rows enc = some err)))) →
          r.outcome = .ret (some err) ∧ r.rows = rows ∧ ServiceStep.Save ∉ r.log) := by
  subst hr
  rcases canManage with e | b
  · refine ⟨fun _ => ⟨rfl, rfl⟩, fun h => ?_, fun _ _ h => ?_⟩
    · simp [StorageService.SaveStorage] at h
    · cases h
  rcases b with _ | _
  · refine ⟨fun _ => ⟨rfl, rfl⟩, fun h => ?_, fun _ _ h => ?_⟩
    · simp [StorageService.SaveStorage] at h
    · cases h
  by_cases hid : storage.ID = uuidNil
  · have hrun : StorageService.SaveStorage (.ok true) saveFault newID rows workspaceID storage
        = StorageService.encryptValidateSave saveFault newID rows
            { storage with WorkspaceID := workspaceID } [.CanUserManageDBs]
            "Storage created: " := by
      simp [StorageService.SaveStorage, hid]
    rw [hrun]
    obtain ⟨hA, hB, hC⟩ := StorageService.encryptValidateSave_spec saveFault newID rows
      { storage with WorkspaceID := workspaceID } [.CanUserManageDBs] "Storage created: "
      (by simp)
    refine ⟨hA, fun h => ?_, fun entity err _ hpath hfail => ?_⟩
    · obtain ⟨encrypted, post, h1, h2, h3, h4, h5⟩ := hB h
      exact ⟨_, encrypted, _, post, h1, Or.inr ⟨hid, rfl, rfl⟩, h2, h3, h4, h5⟩
    · rcases hpath with ⟨hne, -⟩ | ⟨-, rfl⟩
      · exact absurd hid hne
      · exact hC err hfail
  rcases hf : StorageRepository.FindByID rows storage.ID with e | existing
  · have hrun : StorageService.SaveStorage (.ok true) saveFault newID rows workspaceID storage
        = ⟨.ret (some e), rows, [.CanUserManageDBs, .FindByID], none, some storage⟩ := by
      simp [StorageService.SaveStorage, hid, hf]
    rw [hrun]
    refine ⟨fun _ => ⟨rfl, rfl⟩, fun h => ?_, fun entity err _ hpath _ => ?_⟩
    · simp at h
    · rcases hpath with ⟨-, ex, hex, -⟩ | ⟨h0, -⟩
      · cases hex
      · exact absurd h0 hid
  by_cases hw : existing.WorkspaceID = workspaceID
  · have hrun : StorageService.SaveStorage (.ok true) saveFault newID rows workspaceID storage
        = StorageService.encryptValidateSave saveFault newID rows
            (existing.Update storage) [.CanUserManageDBs, .FindByID, .Update]
            "Storage updated: " := by
      simp [StorageService.SaveStorage, hid, hf, hw]
    rw [hrun]
    obtain ⟨hA, hB, hC⟩ := StorageService.encryptValidateSave_spec saveFault newID rows
      (existing.Update storage) [.CanUserManageDBs, .FindByID, .Update] "Storage updated: "
      (by simp)
    refine ⟨hA, fun h => ?_, fun entity err _ hpath hfail => ?_⟩
    · obtain ⟨encrypted, post, h1, h2, h3, h4, h5⟩ := hB h
      exact ⟨_, encrypted, _, post, h1, Or.inl ⟨hid, rfl, existing, rfl, rfl⟩, h2, h3, h4, h5⟩
    · rcases hpath with ⟨-, ex, hex, -, rfl⟩ | ⟨h0, -⟩
      · cases hex
        exact hC err hfail
      · exact absurd h0 hid
  · have hrun : StorageService.SaveStorage (.ok true) saveFault newID rows workspaceID storage
        = ⟨.ret (some (.new "storage does not belong to this workspace")), rows,
            [.CanUserManageDBs, .FindByID], none, some existing⟩ := by
      simp [StorageService.SaveStorage, hid, hf, hw]
    rw [hrun]
    refine ⟨fun _ => ⟨rfl, rfl⟩, fun h => ?_, fun entity err _ hpath _ => ?_⟩
    · simp at h
    · rcases hpath with ⟨-, ex, hex, hwx, -⟩ | ⟨h0, -⟩
      · cases hex
        exact absurd hwx hw
      · exact absurd h0 hid

/-- C11 witness: creating a record whose name is empty: `Validate` fails on
the encrypted entity, its error is returned, `Save` is not invoked and the
table is unchanged. -/
theorem StorageService.SaveStorage_checks_before_save_witness :
    (StorageService.SaveStorage (.ok true) none 77 sampleRows 9 unnamedRecord).outcome
        = .ret (some (.new "storage name is required"))
      ∧ (StorageService.SaveStorage (.ok true) none 77 sampleRows 9 unnamedRecord).rows
        = sampleRows
      ∧ ServiceStep.Save ∉
        (StorageService.SaveStorage (.ok true) none 77 sampleRows 9 unnamedRecord).log :=
  (StorageService.SaveStorage_checks_before_save (.ok true) none 77 sampleRows 9 unnamedRecord
    _ rfl).2.2 { unnamedRecord with WorkspaceID := 9 } (.new "storage name is required") rfl
    (Or.inr ⟨rfl, rfl⟩)
    (Or.inr ⟨{ unnamedRecord with WorkspaceID := 9 }, rfl, Or.inl rfl⟩)

theorem StorageService.TestStorageConnection_failure (asOperator : Storage σ → StorageOperator σ)
    (saveFault : Option GoError) (newID : UUID) (rows : List (Storage σ)) (storageID : UUID)
    (storage s0 : Storage σ) (run : FacadeRun σ (Option GoError)) (e : GoError)
    (hfind : StorageRepository.FindByID rows storageID = .ok storage)
    (hinit : StorageService.initializeMultiStorage asOperator rows storage = (none, s0))
    (htest : s0.TestConnection = .ret run) (hfail : run.result = some e) :
    (StorageService.TestStorageConnection asOperator (.ok true) saveFault newID rows
        storageID).outcome = .ret (some e)
      ∧ (StorageService.TestStorageConnection asOperator (.ok true) saveFault newID rows
        storageID).rows = rows
      ∧ (StorageService.TestStorageConnection asOperator (.ok true) saveFault newID rows
        storageID).saveArg = none
      ∧ (StorageService.TestStorageConnection asOperator (.ok true) saveFault newID rows
        storageID).entity = some { run.self with LastSaveError := some e.Error } := by
  simp [StorageService.TestStorageConnection, hfind, hinit, htest, hfail]

/-- C14: evaluation at the failing input. For the stored record 5, whose
connectivity check fails with "access denied", `TestStorageConnection`
returns that error and sets `LastSaveError` on the struct it loaded, but it
returns before the repository `Save`: the stored record still has no
`lastSaveError`. On the success path (record 8, stored with an old error)
the cleared `LastSaveError` is saved. -/
theorem StorageService.TestStorageConnection_error_not_recorded :
    (StorageService.TestStorageConnection sampleAsOperator (.ok true) none 77
        [brokenRecord, staleRecord] 5).outcome = .ret (some (.new "access denied"))
      ∧ (StorageService.TestStorageConnection sampleAsOperator (.ok true) none 77
        [brokenRecord, staleRecord] 5).log
          = [.FindByID, .CanUserAccessWorkspace, .initializeMultiStorage, .TestConnection]
      ∧ ((StorageService.TestStorageConnection sampleAsOperator (.ok true) none 77
        [brokenRecord, staleRecord] 5).entity.map fun s => s.LastSaveError)
          = some (some "access denied")
      ∧ ((StorageService.TestStorageConnection sampleAsOperator (.ok true) none 77
        [brokenRecord, staleRecord] 5).rows.map fun s => (s.ID, s.LastSaveError))
          = [(5, none), (8, some "old failure")]
      ∧ (StorageService.TestStorageConnection sampleAsOperator (.ok true) none 77
        [brokenRecord, staleRecord] 8).outcome = .ret none
      ∧ ((StorageService.TestStorageConnection sampleAsOperator (.ok true) none 77
        [brokenRecord, staleRecord] 8).rows.map fun s => (s.ID, s.LastSaveError))
          = [(5, none), (8, none)] := by
  refine ⟨rfl, by decide, by decide, by decide, rfl, by decide⟩

end Postgresus
